import Mathlib

/-!
Verification of the ziggy metrics bridge.

This file gives a shallow embedding of the metric-update core of the
repository (app/zigbee2mqtt_metrics.py, app/mqtt_metrics.py and the
message/subscription handlers of app/mqtt_client.py) and proves the
behavioural claims about it.

Modelling conventions:
* JSON payloads are modelled by the inductive type JsonValue.
* Every Prometheus metric mutation performed by the code is recorded as a
  MetricOp value; an update function returns the list of operations it
  performed, in program order, paired with an optional Python exception
  (the class name of the exception).  Operations performed before an
  exception was raised are kept in the list, matching the side-effect
  semantics of the Python code.
* A MetricState applies such a trace: gauges are set, counters are
  incremented (starting implicitly at 0, as prometheus_client does when a
  label set is first used), info metrics are overwritten.
* Machine floats are modelled by rationals.
-/

/-- A JSON value, as produced by json.loads. -/
inductive JsonValue where
  | jnum (q : ℚ)
  | jstr (s : String)
  | jbool (b : Bool)
  | jnull
  | jarr (elems : List JsonValue)
  | jobj (fields : List (String × JsonValue))

/-- Key lookup in a JSON object's field list (first match, as in a dict). -/
def lookupField : List (String × JsonValue) → String → Option JsonValue
  | [], _ => none
  | (k, v) :: rest, key => if k = key then some v else lookupField rest key

/-- Key-presence test for a JSON object's field list. -/
def hasKey (fields : List (String × JsonValue)) (key : String) : Bool :=
  (lookupField fields key).isSome

/-- Substring test, used to model Python's in operator on strings. -/
def strContains (s pat : String) : Bool :=
  (s.splitOn pat).length > 1

/-- Python membership test x in v.  Returns none where Python raises
TypeError (the argument of type int/float/bool/None is not iterable). -/
def pyContains : JsonValue → String → Option Bool
  | .jobj fields, key => some (hasKey fields key)
  | .jarr elems, key =>
      some (elems.any (fun e => match e with
        | .jstr s => s = key
        | _ => false))
  | .jstr s, key => some (strContains s key)
  | _, _ => none

/-- Python subscript v[key] with a string key.  Returns the value for an
object containing the key; none models the KeyError / TypeError raised in
every other case (including string and list subscripts, where a string
index raises TypeError). -/
def pyGetField : JsonValue → String → Option JsonValue
  | .jobj fields, key => lookupField fields key
  | _, _ => none

/-- Python len(v); none models the TypeError on numbers/booleans/None. -/
def pyLen : JsonValue → Option Nat
  | .jarr elems => some elems.length
  | .jstr s => some s.length
  | .jobj fields => some fields.length
  | _ => none

/-- Python v[i] for a natural index; none models IndexError/KeyError/
TypeError.  Indexing a string yields the one-character string. -/
def pyIndex : JsonValue → Nat → Option JsonValue
  | .jarr elems, i => elems.get? i
  | .jstr s, i => (s.toList.get? i).map (fun c => .jstr (String.mk [c]))
  | _, _ => none

/-- Python float(v) as used by Gauge.set / Counter.inc: numbers pass
through, booleans coerce to 0/1; none models the TypeError/ValueError on
None, lists and objects.  (Numeric strings, which Python's float() would
also accept, do not occur in any payload considered here and are mapped to
none.) -/
def pyFloat : JsonValue → Option ℚ
  | .jnum q => some q
  | .jbool b => some (if b then 1 else 0)
  | _ => none

/-- Python truthiness of a JSON value. -/
def truthy : JsonValue → Bool
  | .jnum q => q ≠ 0
  | .jstr s => s ≠ ""
  | .jbool b => b
  | .jnull => false
  | .jarr elems => !elems.isEmpty
  | .jobj fields => !fields.isEmpty

/-- Python str(v) for the scalar values surfaced into Info metrics.  The
renderings of numbers and containers abbreviate Python's (no claim
stringifies them); strings pass through unchanged, which is the case the
code exercises. -/
def pyStr : JsonValue → String
  | .jstr s => s
  | .jbool b => if b then "True" else "False"
  | .jnull => "None"
  | .jnum q => toString q.num ++ (if q.den = 1 then "" else "/" ++ toString q.den)
  | .jarr _ => "<list>"
  | .jobj _ => "<dict>"

/-- One recorded Prometheus mutation: metric name, label set (in the
order the code passes the labels), and payload. -/
inductive MetricOp where
  | setGauge (name : String) (labels : List (String × String)) (value : ℚ)
  | incCounter (name : String) (labels : List (String × String)) (amount : ℚ)
  | setInfo (name : String) (labels : List (String × String)) (kv : List (String × String))
  deriving DecidableEq

/-- Metric name of an operation. -/
def MetricOp.metricName : MetricOp → String
  | .setGauge n _ _ => n
  | .incCounter n _ _ => n
  | .setInfo n _ _ => n

/-- Label set of an operation. -/
def MetricOp.metricLabels : MetricOp → List (String × String)
  | .setGauge _ l _ => l
  | .incCounter _ l _ => l
  | .setInfo _ l _ => l

/-- Update of an association list at a key (replace the first binding or
append). -/
def setAssoc {α β : Type} [DecidableEq α] (k : α) (v : β) : List (α × β) → List (α × β)
  | [] => [(k, v)]
  | (k', v') :: rest => if k' = k then (k, v) :: rest else (k', v') :: setAssoc k v rest

/-- Lookup in an association list. -/
def getAssoc {α β : Type} [DecidableEq α] (k : α) : List (α × β) → Option β
  | [] => none
  | (k', v') :: rest => if k' = k then some v' else getAssoc k rest

/-- The accumulated state of the metric registry. -/
structure MetricState where
  gauges : List ((String × List (String × String)) × ℚ)
  counters : List ((String × List (String × String)) × ℚ)
  infos : List ((String × List (String × String)) × List (String × String))
  deriving DecidableEq

/-- The registry before any mutation. -/
def MetricState.empty : MetricState := ⟨[], [], []⟩

/-- Apply a single metric mutation. -/
def applyOp (s : MetricState) : MetricOp → MetricState
  | .setGauge n l v => { s with gauges := setAssoc (n, l) v s.gauges }
  | .incCounter n l a =>
      { s with counters :=
          setAssoc (n, l) (((getAssoc (n, l) s.counters).getD 0) + a) s.counters }
  | .setInfo n l kv => { s with infos := setAssoc (n, l) kv s.infos }

/-- Apply a trace of metric mutations in order. -/
def applyOps (s : MetricState) : List MetricOp → MetricState
  | [] => s
  | op :: rest => applyOps (applyOp s op) rest

/-- Current value of a gauge (none when it was never set). -/
def gaugeValue (s : MetricState) (n : String) (l : List (String × String)) : Option ℚ :=
  getAssoc (n, l) s.gauges

/-- Current value of a counter (0 when it was never incremented). -/
def counterValue (s : MetricState) (n : String) (l : List (String × String)) : ℚ :=
  (getAssoc (n, l) s.counters).getD 0

/-- Result of a Python metric-update call: the mutations performed, and
the exception (class name) that escaped, if any. -/
abbrev MResult : Type := List MetricOp × Option String

/-- Sequence two update fragments: if the first raised, the second never
runs; its performed mutations are kept either way. -/
def mseq (a : MResult) (b : Unit → MResult) : MResult :=
  match a with
  | (ops, none) => (ops ++ (b ()).1, (b ()).2)
  | (ops, some e) => (ops, some e)

/-! Metric names, as registered at module level in app/zigbee2mqtt_metrics.py. -/

def zigbee2mqtt_bridge_health_timestamp : String := "ziggy_zigbee2mqtt_bridge_health_timestamp"

def zigbee2mqtt_os_load_average_1m : String := "ziggy_zigbee2mqtt_os_load_average_1m"

def zigbee2mqtt_os_load_average_5m : String := "ziggy_zigbee2mqtt_os_load_average_5m"

def zigbee2mqtt_os_load_average_15m : String := "ziggy_zigbee2mqtt_os_load_average_15m"

def zigbee2mqtt_os_memory_used_mb : String := "ziggy_zigbee2mqtt_os_memory_used_mb"

def zigbee2mqtt_os_memory_percent : String := "ziggy_zigbee2mqtt_os_memory_percent"

def zigbee2mqtt_process_uptime_seconds : String := "ziggy_zigbee2mqtt_process_uptime_seconds"

def zigbee2mqtt_process_memory_used_mb : String := "ziggy_zigbee2mqtt_process_memory_used_mb"

def zigbee2mqtt_process_memory_percent : String := "ziggy_zigbee2mqtt_process_memory_percent"

def zigbee2mqtt_mqtt_connected : String := "ziggy_zigbee2mqtt_mqtt_connected"

def zigbee2mqtt_mqtt_queued_messages : String := "ziggy_zigbee2mqtt_mqtt_queued_messages"

def zigbee2mqtt_mqtt_published_messages : String := "ziggy_zigbee2mqtt_mqtt_published_messages_total"

def zigbee2mqtt_mqtt_received_messages : String := "ziggy_zigbee2mqtt_mqtt_received_messages_total"

def zigbee2mqtt_device_leave_count : String := "ziggy_zigbee2mqtt_device_leave_count"

def zigbee2mqtt_device_network_address_changes : String := "ziggy_zigbee2mqtt_device_network_address_changes"

def zigbee2mqtt_device_messages : String := "ziggy_zigbee2mqtt_device_messages"

def zigbee2mqtt_device_messages_per_sec : String := "ziggy_zigbee2mqtt_device_messages_per_sec"

def zigbee2mqtt_device_appearances : String := "ziggy_zigbee2mqtt_device_appearances_total"

def zigbee2mqtt_bridge_state : String := "ziggy_zigbee2mqtt_bridge_state"

def zigbee2mqtt_bridge_state_timestamp : String := "ziggy_zigbee2mqtt_bridge_state_timestamp"

def zigbee2mqtt_bridge_info_version : String := "ziggy_zigbee2mqtt_bridge_info_version"

def zigbee2mqtt_bridge_info_coordinator : String := "ziggy_zigbee2mqtt_bridge_info_coordinator"

def zigbee2mqtt_bridge_info_config : String := "ziggy_zigbee2mqtt_bridge_info_config"

def zigbee2mqtt_bridge_info_timestamp : String := "ziggy_zigbee2mqtt_bridge_info_timestamp"

/-- The label set self.labels of a Zigbee2MQTTMetrics instance. -/
def bridgeLabels (bridge_name : String) : List (String × String) :=
  [("bridge_name", bridge_name)]

/-- The per-device label set, device_labels in update_bridge_health. -/
def deviceLabels (bridge_name device_ieee : String) : List (String × String) :=
  [("bridge_name", bridge_name), ("device_ieee", device_ieee)]

/-! The body of Zigbee2MQTTMetrics.update_bridge_health, block by block. -/

/-- The pattern if key in data: gauge.labels(...).set(data[key]) that
update_bridge_health uses for every scalar gauge.  A present value that
float() rejects raises (prometheus Gauge.set coerces with float). -/
def setFromField (gname : String) (labels : List (String × String))
    (data : JsonValue) (key : String) : MResult :=
  match pyContains data key with
  | none => ([], some "TypeError")
  | some false => ([], none)
  | some true =>
      match pyGetField data key with
      | none => ([], some "TypeError")
      | some v =>
          match pyFloat v with
          | none => ([], some "TypeError")
          | some q => ([.setGauge gname labels q], none)

/-- The response_time block: health_data["response_time"] / 1000 into the
health-timestamp gauge. -/
def healthResponseTime (labels : List (String × String))
    (health_data : List (String × JsonValue)) : MResult :=
  match lookupField health_data "response_time" with
  | none => ([], none)
  | some v =>
      match pyFloat v with
      | none => ([], some "TypeError")
      | some q => ([.setGauge zigbee2mqtt_bridge_health_timestamp labels (q / 1000)], none)

/-- The load_average part of the os block: all three gauges are attempted
only when "load_average" in os_data and len(...) >= 3 holds. -/
def healthLoadAverage (labels : List (String × String)) (os_data : JsonValue) : MResult :=
  match pyContains os_data "load_average" with
  | none => ([], some "TypeError")
  | some false => ([], none)
  | some true =>
      match pyGetField os_data "load_average" with
      | none => ([], some "TypeError")
      | some la =>
          match pyLen la with
          | none => ([], some "TypeError")
          | some n =>
              if n ≥ 3 then
                mseq
                  (match (pyIndex la 0).bind pyFloat with
                   | none => ([], some "TypeError")
                   | some q => ([.setGauge zigbee2mqtt_os_load_average_1m labels q], none))
                  (fun _ => mseq
                    (match (pyIndex la 1).bind pyFloat with
                     | none => ([], some "TypeError")
                     | some q => ([.setGauge zigbee2mqtt_os_load_average_5m labels q], none))
                    (fun _ =>
                      match (pyIndex la 2).bind pyFloat with
                      | none => ([], some "TypeError")
                      | some q => ([.setGauge zigbee2mqtt_os_load_average_15m labels q], none)))
              else ([], none)

/-- The os block of update_bridge_health. -/
def healthOs (labels : List (String × String))
    (health_data : List (String × JsonValue)) : MResult :=
  match lookupField health_data "os" with
  | none => ([], none)
  | some os_data =>
      mseq (healthLoadAverage labels os_data)
        (fun _ => mseq (setFromField zigbee2mqtt_os_memory_used_mb labels os_data "memory_used_mb")
          (fun _ => setFromField zigbee2mqtt_os_memory_percent labels os_data "memory_percent"))

/-- The process block of update_bridge_health. -/
def healthProcess (labels : List (String × String))
    (health_data : List (String × JsonValue)) : MResult :=
  match lookupField health_data "process" with
  | none => ([], none)
  | some process_data =>
      mseq (setFromField zigbee2mqtt_process_uptime_seconds labels process_data "uptime_sec")
        (fun _ => mseq (setFromField zigbee2mqtt_process_memory_used_mb labels process_data "memory_used_mb")
          (fun _ => setFromField zigbee2mqtt_process_memory_percent labels process_data "memory_percent"))

/-- The counter pattern of the mqtt block: Counter.inc(value) raises
ValueError on a negative amount and TypeError on a non-number, otherwise
records the full reported value as the increment ("simplified approach"
in the source). -/
def incFromField (cname : String) (labels : List (String × String))
    (data : JsonValue) (key : String) : MResult :=
  match pyContains data key with
  | none => ([], some "TypeError")
  | some false => ([], none)
  | some true =>
      match pyGetField data key with
      | none => ([], some "TypeError")
      | some v =>
          match pyFloat v with
          | none => ([], some "TypeError")
          | some q => if q < 0 then ([], some "ValueError") else ([.incCounter cname labels q], none)

/-- The mqtt block of update_bridge_health. -/
def healthMqtt (labels : List (String × String))
    (health_data : List (String × JsonValue)) : MResult :=
  match lookupField health_data "mqtt" with
  | none => ([], none)
  | some mqtt_data =>
      mseq
        (match pyContains mqtt_data "connected" with
         | none => ([], some "TypeError")
         | some false => ([], none)
         | some true =>
             match pyGetField mqtt_data "connected" with
             | none => ([], some "TypeError")
             | some v => ([.setGauge zigbee2mqtt_mqtt_connected labels (if truthy v then 1 else 0)], none))
        (fun _ => mseq (setFromField zigbee2mqtt_mqtt_queued_messages labels mqtt_data "queued_messages")
          (fun _ => mseq (incFromField zigbee2mqtt_mqtt_published_messages labels mqtt_data "published_messages_total")
            (fun _ => incFromField zigbee2mqtt_mqtt_received_messages labels mqtt_data "received_messages_total")))

/-- The per-device body of the devices loop: four conditional gauge
overwrites, then an unconditional appearance-counter increment by 1. -/
def deviceUpdate (bridge_name device_ieee : String) (device_data : JsonValue) : MResult :=
  mseq (setFromField zigbee2mqtt_device_leave_count (deviceLabels bridge_name device_ieee) device_data "leave_count")
    (fun _ => mseq (setFromField zigbee2mqtt_device_network_address_changes (deviceLabels bridge_name device_ieee) device_data "network_address_changes")
      (fun _ => mseq (setFromField zigbee2mqtt_device_messages (deviceLabels bridge_name device_ieee) device_data "messages")
        (fun _ => mseq (setFromField zigbee2mqtt_device_messages_per_sec (deviceLabels bridge_name device_ieee) device_data "messages_per_sec")
          (fun _ => ([.incCounter zigbee2mqtt_device_appearances (deviceLabels bridge_name device_ieee) 1], none)))))

/-- The for device_ieee, device_data in devices_data.items() loop. -/
def devicesLoop (bridge_name : String) : List (String × JsonValue) → MResult
  | [] => ([], none)
  | (device_ieee, device_data) :: rest =>
      mseq (deviceUpdate bridge_name device_ieee device_data)
        (fun _ => devicesLoop bridge_name rest)

/-- The devices block of update_bridge_health: a non-dict value is
skipped (isinstance check), a dict containing "total" or "active" is
summary data and skipped, otherwise every entry is processed. -/
def healthDevices (bridge_name : String)
    (health_data : List (String × JsonValue)) : MResult :=
  match lookupField health_data "devices" with
  | none => ([], none)
  | some devices_data =>
      match devices_data with
      | .jobj devs =>
          if hasKey devs "total" || hasKey devs "active" then ([], none)
          else devicesLoop bridge_name devs
      | _ => ([], none)

/-- Zigbee2MQTTMetrics.update_bridge_health: the five blocks in program
order; an exception raised in one block skips the remaining blocks (it
propagates to the caller) but keeps the mutations already made. -/
def update_bridge_health (bridge_name : String)
    (health_data : List (String × JsonValue)) : MResult :=
  mseq (healthResponseTime (bridgeLabels bridge_name) health_data)
    (fun _ => mseq (healthOs (bridgeLabels bridge_name) health_data)
      (fun _ => mseq (healthProcess (bridgeLabels bridge_name) health_data)
        (fun _ => mseq (healthMqtt (bridgeLabels bridge_name) health_data)
          (fun _ => healthDevices bridge_name health_data))))

/-- Zigbee2MQTTMetrics.update_bridge_state: always stamp the state
timestamp with the wall clock (passed here as now); when the "state"
field is present, set the 0/1 state gauge, 1 exactly when the value is
the string "online".  No path of this function raises. -/
def update_bridge_state (bridge_name : String) (now : ℚ)
    (state_data : List (String × JsonValue)) : List MetricOp :=
  .setGauge zigbee2mqtt_bridge_state_timestamp (bridgeLabels bridge_name) now ::
    (match lookupField state_data "state" with
     | some v =>
         [.setGauge zigbee2mqtt_bridge_state (bridgeLabels bridge_name)
           (match v with
            | .jstr s => if s = "online" then 1 else 0
            | _ => 0)]
     | none => [])

/-! Bridge info field policy (app/zigbee2mqtt_metrics.py). -/

/-- A field-inclusion policy: category name to allow-listed field names,
insertion-ordered, mirroring the module-level dict of lists. -/
abbrev Policy : Type := List (String × List String)

/-- Lookup of a category's field list. -/
def policyFields (p : Policy) (category : String) : Option (List String) :=
  getAssoc category p

/-- The default BRIDGE_INFO_INCLUDED_FIELDS configuration. -/
def BRIDGE_INFO_INCLUDED_FIELDS : Policy :=
  [("version", ["version", "commit"]),
   ("coordinator", ["ieee_address", "type"]),
   ("config", ["mqtt_server", "mqtt_base_topic", "permit_join", "log_level"])]

/-- add_bridge_info_field: append the field to the category's list when
the category exists and the field is not yet present; otherwise (field
already present, or unknown category) only log - the policy is
unchanged. -/
def add_bridge_info_field (p : Policy) (category field_name : String) : Policy :=
  match policyFields p category with
  | none => p
  | some l => if field_name ∈ l then p else setAssoc category (l ++ [field_name]) p

/-- remove_bridge_info_field: remove the first occurrence of the field
from the category's list when present (Python list.remove); otherwise
(absent field, or unknown category) only log - the policy is
unchanged. -/
def remove_bridge_info_field (p : Policy) (category field_name : String) : Policy :=
  match policyFields p category with
  | none => p
  | some l => if field_name ∈ l then setAssoc category (l.erase field_name) p else p

/-- The field-collection loop shared by the three blocks of
update_bridge_info: for field in FIELDS[cat]: if field in src:
out[field] = str(src[field]).  The membership test raises on
non-container sources, aborting the whole update. -/
def collectFields (src : JsonValue) : List String → List (String × String) × Option String
  | [] => ([], none)
  | f :: rest =>
      match pyContains src f with
      | none => ([], some "TypeError")
      | some false => collectFields src rest
      | some true =>
          match pyGetField src f with
          | none => ([], some "TypeError")
          | some v =>
              match collectFields src rest with
              | (m, e) => ((f, pyStr v) :: m, e)

/-- One category block of update_bridge_info: emit a single Info metric
when the filtered map is non-empty.  (The Python code reads
BRIDGE_INFO_INCLUDED_FIELDS[cat] directly; a missing category would raise
KeyError, which the add/remove API can never cause, so the lookup is
defaulted to [] here.) -/
def infoCategory (metric : String) (labels : List (String × String))
    (p : Policy) (category : String) (src : JsonValue) : MResult :=
  match collectFields src ((policyFields p category).getD []) with
  | (_, some e) => ([], some e)
  | (m, none) => (if m.isEmpty then [] else [.setInfo metric labels m], none)

/-- Zigbee2MQTTMetrics.update_bridge_info: always stamp the info
timestamp; then the version block (guarded by the presence of the
"version" key but reading every allow-listed field from the payload
root), the coordinator block and the config block (each reading from its
sub-object). -/
def update_bridge_info (p : Policy) (bridge_name : String) (now : ℚ)
    (info_data : List (String × JsonValue)) : MResult :=
  mseq ([.setGauge zigbee2mqtt_bridge_info_timestamp (bridgeLabels bridge_name) now], none)
    (fun _ => mseq
      (match lookupField info_data "version" with
       | none => ([], none)
       | some _ =>
           infoCategory zigbee2mqtt_bridge_info_version (bridgeLabels bridge_name)
             p "version" (.jobj info_data))
      (fun _ => mseq
        (match lookupField info_data "coordinator" with
         | none => ([], none)
         | some coordinator_data =>
             infoCategory zigbee2mqtt_bridge_info_coordinator (bridgeLabels bridge_name)
               p "coordinator" coordinator_data)
        (fun _ =>
          match lookupField info_data "config" with
          | none => ([], none)
          | some config_data =>
              infoCategory zigbee2mqtt_bridge_info_config (bridgeLabels bridge_name)
                p "config" config_data)))

/-! MQTT client metrics (app/mqtt_metrics.py) and the message /
subscription handlers of app/mqtt_client.py. -/

def mqtt_message_processing_errors : String := "ziggy_mqtt_message_processing_errors_total"

def mqtt_subscription_attempts : String := "ziggy_mqtt_subscription_attempts_total"

def mqtt_subscription_failures : String := "ziggy_mqtt_subscription_failures_total"

def mqtt_subscriptions_active : String := "ziggy_mqtt_subscriptions_active"

/-- The identity of an MQTTMetrics instance. -/
structure MQTTMetricsCtx where
  broker_host : String
  bridge_name : String
  deriving DecidableEq

/-- MQTTMetrics.increment_processing_errors. -/
def increment_processing_errors (m : MQTTMetricsCtx) (topic error_type : String) : MetricOp :=
  .incCounter mqtt_message_processing_errors
    [("topic", topic), ("broker_host", m.broker_host),
     ("error_type", error_type), ("bridge_name", m.bridge_name)] 1

/-- MQTTMetrics.increment_subscription_attempts. -/
def increment_subscription_attempts (m : MQTTMetricsCtx) (topic : String) : MetricOp :=
  .incCounter mqtt_subscription_attempts
    [("topic", topic), ("broker_host", m.broker_host), ("bridge_name", m.bridge_name)] 1

/-- MQTTMetrics.increment_subscription_failures. -/
def increment_subscription_failures (m : MQTTMetricsCtx) (topic : String) : MetricOp :=
  .incCounter mqtt_subscription_failures
    [("topic", topic), ("broker_host", m.broker_host), ("bridge_name", m.bridge_name)] 1

/-- MQTTMetrics.set_subscriptions_active. -/
def set_subscriptions_active (m : MQTTMetricsCtx) (count : ℕ) : MetricOp :=
  .setGauge mqtt_subscriptions_active
    [("broker_host", m.broker_host), ("bridge_name", m.bridge_name)] count

/-- The outcome of decoding a raw MQTT payload: the two library calls
payload.decode("utf-8") and json.loads are external, so their result is
taken as the input of the handler model.  A successfully parsed payload
is carried as its object fields. -/
inductive PayloadDecode where
  | invalidUtf8
  | invalidJson
  | parsed (fields : List (String × JsonValue))

/-- ZiggyMQTTClient._handle_zigbee2mqtt_health: a UnicodeDecodeError from
.decode falls to the generic except-clause (handler_error); a
JSONDecodeError is counted as json_parse_error; a parsed payload goes to
update_bridge_health, whose exception (if any) is counted as
handler_error.  No exception escapes. -/
def handle_zigbee2mqtt_health (m : MQTTMetricsCtx) (bridge_name health_topic : String)
    (p : PayloadDecode) : List MetricOp :=
  match p with
  | .invalidUtf8 => [increment_processing_errors m health_topic "handler_error"]
  | .invalidJson => [increment_processing_errors m health_topic "json_parse_error"]
  | .parsed fields =>
      match update_bridge_health bridge_name fields with
      | (ops, none) => ops
      | (ops, some _) => ops ++ [increment_processing_errors m health_topic "handler_error"]

/-- ZiggyMQTTClient._handle_zigbee2mqtt_state, with the same error
taxonomy as the health handler (update_bridge_state itself never
raises). -/
def handle_zigbee2mqtt_state (m : MQTTMetricsCtx) (bridge_name state_topic : String)
    (now : ℚ) (p : PayloadDecode) : List MetricOp :=
  match p with
  | .invalidUtf8 => [increment_processing_errors m state_topic "handler_error"]
  | .invalidJson => [increment_processing_errors m state_topic "json_parse_error"]
  | .parsed fields => update_bridge_state bridge_name now fields

/-- ZiggyMQTTClient._handle_general_message: a JSON parse failure is
caught by the inner try and only logged - no counter is touched; any
other exception (such as the UnicodeDecodeError of .decode) increments
the general_error counter.  A parsed payload is only logged. -/
def handle_general_message (m : MQTTMetricsCtx) (topic : String)
    (p : PayloadDecode) : List MetricOp :=
  match p with
  | .invalidUtf8 => [increment_processing_errors m topic "general_error"]
  | .invalidJson => []
  | .parsed _ => []

/-- The subscription-tracking state of ZiggyMQTTClient. -/
structure ClientState where
  connected : Bool
  subscribed_topics : List String
  deriving DecidableEq

/-- Python set.add on the tracked topic list. -/
def addTopic (topics : List String) (topic : String) : List String :=
  if topic ∈ topics then topics else topics ++ [topic]

/-- ZiggyMQTTClient.subscribe.  The outcome of the external
self.mqtt.subscribe(topic) call is the parameter subOk (false models the
call raising).  Not connected: return False with no metric activity.
Otherwise count the attempt; on success add the topic to the tracked set
and republish the active-subscription gauge as its size; on failure count
the failure and leave the tracked set untouched. -/
def clientSubscribe (m : MQTTMetricsCtx) (st : ClientState) (topic : String)
    (subOk : Bool) : ClientState × List MetricOp × Bool :=
  if st.connected = false then (st, [], false)
  else if subOk then
    (⟨st.connected, addTopic st.subscribed_topics topic⟩,
     [increment_subscription_attempts m topic,
      set_subscriptions_active m (addTopic st.subscribed_topics topic).length],
     true)
  else
    (st,
     [increment_subscription_attempts m topic, increment_subscription_failures m topic],
     false)

/-- The total of the increments a trace applies to one counter. -/
def sumIncs (key : String × List (String × String)) : List MetricOp → ℚ
  | [] => 0
  | .incCounter n l a :: rest => (if (n, l) = key then a else 0) + sumIncs key rest
  | .setGauge _ _ _ :: rest => sumIncs key rest
  | .setInfo _ _ _ :: rest => sumIncs key rest

/-- Operations whose counter increments are all non-negative. -/
def incNonneg (op : MetricOp) : Prop :=
  ∀ n l a, op = .incCounter n l a → 0 ≤ a

/-- The five per-device metrics of update_bridge_health. -/
def deviceMetricNames : List String :=
  [zigbee2mqtt_device_leave_count, zigbee2mqtt_device_network_address_changes,
   zigbee2mqtt_device_messages, zigbee2mqtt_device_messages_per_sec,
   zigbee2mqtt_device_appearances]

/-- The per-device mutations prescribed for one device record: overwrite
each of the four gauges whose field is present, in source order, then
count one appearance. -/
def expectedDeviceOps (bn ieee : String) (ddf : List (String × JsonValue)) : List MetricOp :=
  (match lookupField ddf "leave_count" with
   | some v => [.setGauge zigbee2mqtt_device_leave_count (deviceLabels bn ieee) ((pyFloat v).getD 0)]
   | none => []) ++
  (match lookupField ddf "network_address_changes" with
   | some v => [.setGauge zigbee2mqtt_device_network_address_changes (deviceLabels bn ieee) ((pyFloat v).getD 0)]
   | none => []) ++
  (match lookupField ddf "messages" with
   | some v => [.setGauge zigbee2mqtt_device_messages (deviceLabels bn ieee) ((pyFloat v).getD 0)]
   | none => []) ++
  (match lookupField ddf "messages_per_sec" with
   | some v => [.setGauge zigbee2mqtt_device_messages_per_sec (deviceLabels bn ieee) ((pyFloat v).getD 0)]
   | none => []) ++
  [.incCounter zigbee2mqtt_device_appearances (deviceLabels bn ieee) 1]

/-- The gauges and counters associated with each optional top-level key
of a health payload. -/
def healthKeyMetricNames : String → List String
  | "response_time" => [zigbee2mqtt_bridge_health_timestamp]
  | "os" => [zigbee2mqtt_os_load_average_1m, zigbee2mqtt_os_load_average_5m,
      zigbee2mqtt_os_load_average_15m, zigbee2mqtt_os_memory_used_mb,
      zigbee2mqtt_os_memory_percent]
  | "process" => [zigbee2mqtt_process_uptime_seconds, zigbee2mqtt_process_memory_used_mb,
      zigbee2mqtt_process_memory_percent]
  | "mqtt" => [zigbee2mqtt_mqtt_connected, zigbee2mqtt_mqtt_queued_messages,
      zigbee2mqtt_mqtt_published_messages, zigbee2mqtt_mqtt_received_messages]
  | "devices" => deviceMetricNames
  | _ => []

/-! Basic lemmas about association lists and the metric state. -/

theorem getAssoc_setAssoc_self {α β : Type} [DecidableEq α] (k : α) (v : β)
    (l : List (α × β)) : getAssoc k (setAssoc k v l) = some v := by
  induction l with
  | nil => simp [getAssoc, setAssoc]
  | cons hd tl ih =>
      obtain ⟨k', v'⟩ := hd
      by_cases h : k' = k <;> simp [getAssoc, setAssoc, h, ih]

theorem getAssoc_setAssoc_ne {α β : Type} [DecidableEq α] {k k' : α} (v : β)
    (l : List (α × β)) (h : k' ≠ k) : getAssoc k' (setAssoc k v l) = getAssoc k' l := by
  induction l with
  | nil => simp [getAssoc, setAssoc, Ne.symm h]
  | cons hd tl ih =>
      obtain ⟨k'', v''⟩ := hd
      by_cases h2 : k'' = k
      · subst h2
        simp [getAssoc, setAssoc, Ne.symm h]
      · simp [getAssoc, setAssoc, h2]
        by_cases h3 : k'' = k' <;> simp [h3, ih]

@[simp] theorem applyOps_nil (s : MetricState) : applyOps s [] = s := rfl

@[simp] theorem applyOps_cons (s : MetricState) (op : MetricOp) (ops : List MetricOp) :
    applyOps s (op :: ops) = applyOps (applyOp s op) ops := rfl

theorem applyOps_append (s : MetricState) (l₁ l₂ : List MetricOp) :
    applyOps s (l₁ ++ l₂) = applyOps (applyOps s l₁) l₂ := by
  induction l₁ generalizing s with
  | nil => simp
  | cons op rest ih => simp [ih]

@[simp] theorem counterValue_applyOp_setGauge (s : MetricState) (n : String)
    (l : List (String × String)) (v : ℚ) (m : String) (k : List (String × String)) :
    counterValue (applyOp s (.setGauge n l v)) m k = counterValue s m k := rfl

@[simp] theorem counterValue_applyOp_setInfo (s : MetricState) (n : String)
    (l : List (String × String)) (kv : List (String × String)) (m : String)
    (k : List (String × String)) :
    counterValue (applyOp s (.setInfo n l kv)) m k = counterValue s m k := rfl

theorem counterValue_applyOp_inc_self (s : MetricState) (n : String)
    (l : List (String × String)) (a : ℚ) :
    counterValue (applyOp s (.incCounter n l a)) n l = counterValue s n l + a := by
  simp [counterValue, applyOp, getAssoc_setAssoc_self]

theorem counterValue_applyOp_inc_ne (s : MetricState) {n : String}
    {l : List (String × String)} (a : ℚ) {m : String} {k : List (String × String)}
    (h : (m, k) ≠ (n, l)) :
    counterValue (applyOp s (.incCounter n l a)) m k = counterValue s m k := by
  simp [counterValue, applyOp, getAssoc_setAssoc_ne _ _ h]

@[simp] theorem gaugeValue_applyOp_inc (s : MetricState) (n : String)
    (l : List (String × String)) (a : ℚ) (m : String) (k : List (String × String)) :
    gaugeValue (applyOp s (.incCounter n l a)) m k = gaugeValue s m k := rfl

@[simp] theorem gaugeValue_applyOp_setInfo (s : MetricState) (n : String)
    (l : List (String × String)) (kv : List (String × String)) (m : String)
    (k : List (String × String)) :
    gaugeValue (applyOp s (.setInfo n l kv)) m k = gaugeValue s m k := rfl

theorem gaugeValue_applyOp_set_self (s : MetricState) (n : String)
    (l : List (String × String)) (v : ℚ) :
    gaugeValue (applyOp s (.setGauge n l v)) n l = some v := by
  simp [gaugeValue, applyOp, getAssoc_setAssoc_self]

theorem gaugeValue_applyOp_set_ne (s : MetricState) {n : String}
    {l : List (String × String)} (v : ℚ) {m : String} {k : List (String × String)}
    (h : (m, k) ≠ (n, l)) :
    gaugeValue (applyOp s (.setGauge n l v)) m k = gaugeValue s m k := by
  simp [gaugeValue, applyOp, getAssoc_setAssoc_ne _ _ h]

theorem counterValue_applyOps (n : String) (l : List (String × String)) :
    ∀ (ops : List MetricOp) (s : MetricState),
      counterValue (applyOps s ops) n l = counterValue s n l + sumIncs (n, l) ops := by
  intro ops
  induction ops with
  | nil => intro s; simp [sumIncs]
  | cons op rest ih =>
      intro s
      cases op with
      | setGauge m k v => simp [sumIncs, ih]
      | setInfo m k kv => simp [sumIncs, ih]
      | incCounter m k a =>
          by_cases h : (m, k) = (n, l)
          · obtain ⟨h1, h2⟩ := Prod.mk.injEq .. ▸ h
            subst h1; subst h2
            simp [sumIncs, ih, counterValue_applyOp_inc_self]
            ring
          · have h' : (n, l) ≠ (m, k) := fun hh => h hh.symm
            simp [sumIncs, ih, counterValue_applyOp_inc_ne _ _ h', h]

theorem sumIncs_nonneg (key : String × List (String × String)) (ops : List MetricOp)
    (h : ∀ op ∈ ops, incNonneg op) : 0 ≤ sumIncs key ops := by
  induction ops with
  | nil => simp [sumIncs]
  | cons op rest ih =>
      have hrest : 0 ≤ sumIncs key rest := ih (fun o ho => h o (List.mem_cons_of_mem _ ho))
      cases op with
      | setGauge m k v => simpa [sumIncs] using hrest
      | setInfo m k kv => simpa [sumIncs] using hrest
      | incCounter m k a =>
          have ha : 0 ≤ a := h _ (List.mem_cons_self _ _) m k a rfl
          simp only [sumIncs]
          by_cases hk : (m, k) = key <;> simp [hk] <;> linarith

theorem counterValue_mono (n : String) (l : List (String × String))
    (ops : List MetricOp) (s : MetricState) (h : ∀ op ∈ ops, incNonneg op) :
    counterValue s n l ≤ counterValue (applyOps s ops) n l := by
  rw [counterValue_applyOps]
  have := sumIncs_nonneg (n, l) ops h
  linarith

/-! Lemmas about the sequencing combinator. -/

theorem mseq_fst_of_none {a : MResult} {b : Unit → MResult} (h : a.2 = none) :
    (mseq a b).1 = a.1 ++ (b ()).1 := by
  obtain ⟨ops, e⟩ := a
  cases e with
  | none => rfl
  | some e => simp at h

theorem mseq_fst_of_some {a : MResult} {b : Unit → MResult} {e : String}
    (h : a.2 = some e) : (mseq a b).1 = a.1 := by
  obtain ⟨ops, e'⟩ := a
  cases e' with
  | none => simp at h
  | some e' => rfl

theorem mseq_snd_none {a : MResult} {b : Unit → MResult}
    (h : (mseq a b).2 = none) : a.2 = none ∧ (b ()).2 = none := by
  obtain ⟨ops, e⟩ := a
  cases e with
  | none => exact ⟨rfl, h⟩
  | some e => simp [mseq] at h

theorem mem_mseq {a : MResult} {b : Unit → MResult} {op : MetricOp}
    (h : op ∈ (mseq a b).1) : op ∈ a.1 ∨ op ∈ (b ()).1 := by
  obtain ⟨ops, e⟩ := a
  cases e with
  | none => simpa [mseq] using h
  | some e => exact Or.inl h

/-! Shape lemmas for the blocks of update_bridge_health. -/

theorem setFromField_mem {g : String} {L : List (String × String)} {d : JsonValue}
    {k : String} {op : MetricOp} (h : op ∈ (setFromField g L d k).1) :
    ∃ q, op = .setGauge g L q := by
  unfold setFromField at h
  split at h
  · simp at h
  · simp at h
  · split at h
    · simp at h
    · split at h
      · simp at h
      · simp at h
        exact ⟨_, h⟩

theorem incFromField_mem {c : String} {L : List (String × String)} {d : JsonValue}
    {k : String} {op : MetricOp} (h : op ∈ (incFromField c L d k).1) :
    ∃ q, 0 ≤ q ∧ op = .incCounter c L q := by
  unfold incFromField at h
  split at h
  · simp at h
  · simp at h
  · split at h
    · simp at h
    · split at h
      · simp at h
      · split at h
        · simp at h
        · simp at h
          exact ⟨_, le_of_not_lt (by assumption), h⟩

theorem healthResponseTime_mem {L : List (String × String)}
    {f : List (String × JsonValue)} {op : MetricOp}
    (h : op ∈ (healthResponseTime L f).1) :
    ∃ q, op = .setGauge zigbee2mqtt_bridge_health_timestamp L q := by
  unfold healthResponseTime at h
  split at h
  · simp at h
  · split at h
    · simp at h
    · simp at h
      exact ⟨_, h⟩

theorem healthLoadAverage_mem {L : List (String × String)} {os_data : JsonValue}
    {op : MetricOp} (h : op ∈ (healthLoadAverage L os_data).1) :
    ∃ q, op = .setGauge zigbee2mqtt_os_load_average_1m L q ∨
      op = .setGauge zigbee2mqtt_os_load_average_5m L q ∨
      op = .setGauge zigbee2mqtt_os_load_average_15m L q := by
  unfold healthLoadAverage at h
  split at h
  · simp at h
  · simp at h
  · split at h
    · simp at h
    · split at h
      · simp at h
      · split at h
        · rcases mem_mseq h with h1 | h1
          · split at h1
            · simp at h1
            · simp at h1
              exact ⟨_, Or.inl h1⟩
          · rcases mem_mseq h1 with h2 | h2
            · split at h2
              · simp at h2
              · simp at h2
                exact ⟨_, Or.inr (Or.inl h2)⟩
            · split at h2
              · simp at h2
              · simp at h2
                exact ⟨_, Or.inr (Or.inr h2)⟩
        · simp at h

/-- Every operation of the os block is a gauge set on one of the five os
metrics, labelled with the bridge labels. -/
theorem healthOs_mem {L : List (String × String)} {f : List (String × JsonValue)}
    {op : MetricOp} (h : op ∈ (healthOs L f).1) :
    op.metricName ∈ [zigbee2mqtt_os_load_average_1m, zigbee2mqtt_os_load_average_5m,
      zigbee2mqtt_os_load_average_15m, zigbee2mqtt_os_memory_used_mb,
      zigbee2mqtt_os_memory_percent] ∧ op.metricLabels = L ∧
      ∀ n l a, op ≠ MetricOp.incCounter n l a := by
  unfold healthOs at h
  split at h
  · simp at h
  · rcases mem_mseq h with h1 | h1
    · obtain ⟨q, hq⟩ := healthLoadAverage_mem h1
      rcases hq with hq | hq | hq <;> subst hq <;>
        simp [MetricOp.metricName, MetricOp.metricLabels]
    · rcases mem_mseq h1 with h2 | h2
      · obtain ⟨q, hq⟩ := setFromField_mem h2
        subst hq
        simp [MetricOp.metricName, MetricOp.metricLabels]
      · obtain ⟨q, hq⟩ := setFromField_mem h2
        subst hq
        simp [MetricOp.metricName, MetricOp.metricLabels]

/-- Every operation of the process block is a gauge set on one of the
three process metrics, labelled with the bridge labels. -/
theorem healthProcess_mem {L : List (String × String)} {f : List (String × JsonValue)}
    {op : MetricOp} (h : op ∈ (healthProcess L f).1) :
    op.metricName ∈ [zigbee2mqtt_process_uptime_seconds,
      zigbee2mqtt_process_memory_used_mb, zigbee2mqtt_process_memory_percent] ∧
      op.metricLabels = L ∧ ∀ n l a, op ≠ MetricOp.incCounter n l a := by
  unfold healthProcess at h
  split at h
  · simp at h
  · rcases mem_mseq h with h1 | h1
    · obtain ⟨q, hq⟩ := setFromField_mem h1
      subst hq
      simp [MetricOp.metricName, MetricOp.metricLabels]
    · rcases mem_mseq h1 with h2 | h2 <;>
      · obtain ⟨q, hq⟩ := setFromField_mem h2
        subst hq
        simp [MetricOp.metricName, MetricOp.metricLabels]

/-- Every operation of the mqtt block touches one of the four mqtt
metrics with the bridge labels, and its counter increments are
non-negative. -/
theorem healthMqtt_mem {L : List (String × String)} {f : List (String × JsonValue)}
    {op : MetricOp} (h : op ∈ (healthMqtt L f).1) :
    op.metricName ∈ [zigbee2mqtt_mqtt_connected, zigbee2mqtt_mqtt_queued_messages,
      zigbee2mqtt_mqtt_published_messages, zigbee2mqtt_mqtt_received_messages] ∧
      op.metricLabels = L ∧ incNonneg op := by
  unfold healthMqtt at h
  split at h
  · simp at h
  · rcases mem_mseq h with h1 | h1
    · split at h1
      · simp at h1
      · simp at h1
      · split at h1
        · simp at h1
        · simp at h1
          subst h1
          simp [MetricOp.metricName, MetricOp.metricLabels, incNonneg]
    · rcases mem_mseq h1 with h2 | h2
      · obtain ⟨q, hq⟩ := setFromField_mem h2
        subst hq
        simp [MetricOp.metricName, MetricOp.metricLabels, incNonneg]
      · rcases mem_mseq h2 with h3 | h3 <;>
        · obtain ⟨q, hq0, hq⟩ := incFromField_mem h3
          subst hq
          refine ⟨by simp [MetricOp.metricName], by simp [MetricOp.metricLabels], ?_⟩
          intro n l a ha
          cases ha
          exact hq0

theorem deviceUpdate_mem {bn i : String} {d : JsonValue} {op : MetricOp}
    (h : op ∈ (deviceUpdate bn i d).1) :
    op.metricName ∈ deviceMetricNames ∧ op.metricLabels = deviceLabels bn i ∧
      incNonneg op := by
  unfold deviceUpdate at h
  rcases mem_mseq h with h1 | h1
  · obtain ⟨q, hq⟩ := setFromField_mem h1
    subst hq
    simp [MetricOp.metricName, MetricOp.metricLabels, incNonneg, deviceMetricNames]
  · rcases mem_mseq h1 with h2 | h2
    · obtain ⟨q, hq⟩ := setFromField_mem h2
      subst hq
      simp [MetricOp.metricName, MetricOp.metricLabels, incNonneg, deviceMetricNames]
    · rcases mem_mseq h2 with h3 | h3
      · obtain ⟨q, hq⟩ := setFromField_mem h3
        subst hq
        simp [MetricOp.metricName, MetricOp.metricLabels, incNonneg, deviceMetricNames]
      · rcases mem_mseq h3 with h4 | h4
        · obtain ⟨q, hq⟩ := setFromField_mem h4
          subst hq
          simp [MetricOp.metricName, MetricOp.metricLabels, incNonneg, deviceMetricNames]
        · simp at h4
          subst h4
          refine ⟨by simp [MetricOp.metricName, deviceMetricNames],
            by simp [MetricOp.metricLabels], ?_⟩
          intro n l a ha
          cases ha
          norm_num

theorem devicesLoop_mem {bn : String} {op : MetricOp} :
    ∀ {devs : List (String × JsonValue)}, op ∈ (devicesLoop bn devs).1 →
      ∃ i d, (i, d) ∈ devs ∧ op ∈ (deviceUpdate bn i d).1 := by
  intro devs
  induction devs with
  | nil => intro h; simp [devicesLoop] at h
  | cons hd tl ih =>
      obtain ⟨i, d⟩ := hd
      intro h
      rcases mem_mseq h with h1 | h1
      · exact ⟨i, d, by simp, h1⟩
      · obtain ⟨i', d', hmem, hop⟩ := ih h1
        exact ⟨i', d', by simp [hmem], hop⟩

theorem healthDevices_mem {bn : String} {f : List (String × JsonValue)} {op : MetricOp}
    (h : op ∈ (healthDevices bn f).1) :
    ∃ i d, op ∈ (deviceUpdate bn i d).1 := by
  unfold healthDevices at h
  split at h
  · simp at h
  · split at h
    · split at h
      · simp at h
      · obtain ⟨i, d, _, hop⟩ := devicesLoop_mem h
        exact ⟨i, d, hop⟩
    · simp at h

/-- Partition of the operations of update_bridge_health over its five
source blocks. -/
theorem update_bridge_health_mem {bn : String} {f : List (String × JsonValue)}
    {op : MetricOp} (h : op ∈ (update_bridge_health bn f).1) :
    op ∈ (healthResponseTime (bridgeLabels bn) f).1 ∨
    op ∈ (healthOs (bridgeLabels bn) f).1 ∨
    op ∈ (healthProcess (bridgeLabels bn) f).1 ∨
    op ∈ (healthMqtt (bridgeLabels bn) f).1 ∨
    op ∈ (healthDevices bn f).1 := by
  unfold update_bridge_health at h
  rcases mem_mseq h with h1 | h1
  · exact Or.inl h1
  · rcases mem_mseq h1 with h2 | h2
    · exact Or.inr (Or.inl h2)
    · rcases mem_mseq h2 with h3 | h3
      · exact Or.inr (Or.inr (Or.inl h3))
      · rcases mem_mseq h3 with h4 | h4
        · exact Or.inr (Or.inr (Or.inr (Or.inl h4)))
        · exact Or.inr (Or.inr (Or.inr (Or.inr h4)))

/-- Every counter increment performed by update_bridge_health is
non-negative (the mqtt counters reject negative amounts, the appearance
counter advances by 1). -/
theorem update_bridge_health_incs_nonneg {bn : String} {f : List (String × JsonValue)}
    {op : MetricOp} (h : op ∈ (update_bridge_health bn f).1) : incNonneg op := by
  rcases update_bridge_health_mem h with h1 | h1 | h1 | h1 | h1
  · obtain ⟨q, hq⟩ := healthResponseTime_mem h1
    subst hq
    intro n l a ha
    cases ha
  · exact fun n l a ha => absurd ha ((healthOs_mem h1).2.2 n l a)
  · exact fun n l a ha => absurd ha ((healthProcess_mem h1).2.2 n l a)
  · exact (healthMqtt_mem h1).2.2
  · obtain ⟨i, d, hop⟩ := healthDevices_mem h1
    exact (deviceUpdate_mem hop).2.2

theorem setFromField_obj_success {g : String} {L : List (String × String)}
    {ddf : List (String × JsonValue)} {k : String}
    (h : (setFromField g L (.jobj ddf) k).2 = none) :
    (setFromField g L (.jobj ddf) k).1 =
      match lookupField ddf k with
      | some v => [.setGauge g L ((pyFloat v).getD 0)]
      | none => [] := by
  cases hv : lookupField ddf k with
  | none => simp [setFromField, pyContains, hasKey, hv]
  | some v =>
      cases hf : pyFloat v with
      | none => simp [setFromField, pyContains, hasKey, pyGetField, hv, hf] at h
      | some q => simp [setFromField, pyContains, hasKey, pyGetField, hv, hf]

/-- On a successfully processed device record, the code's mutations are
exactly the prescribed ones. -/
theorem deviceUpdate_success_eq {bn ieee : String} {ddf : List (String × JsonValue)}
    (h : (deviceUpdate bn ieee (.jobj ddf)).2 = none) :
    (deviceUpdate bn ieee (.jobj ddf)).1 = expectedDeviceOps bn ieee ddf := by
  unfold deviceUpdate at h ⊢
  obtain ⟨h1, h'⟩ := mseq_snd_none h
  obtain ⟨h2, h''⟩ := mseq_snd_none h'
  obtain ⟨h3, h'''⟩ := mseq_snd_none h''
  obtain ⟨h4, -⟩ := mseq_snd_none h'''
  rw [mseq_fst_of_none h1, mseq_fst_of_none h2, mseq_fst_of_none h3, mseq_fst_of_none h4]
  rw [setFromField_obj_success h1, setFromField_obj_success h2,
    setFromField_obj_success h3, setFromField_obj_success h4]
  simp [expectedDeviceOps]

/-- A device label set determines the device: distinct devices get
distinct label sets. -/
theorem deviceLabels_inj {bn i j : String} (h : deviceLabels bn i = deviceLabels bn j) :
    i = j := by
  simpa [deviceLabels] using h

theorem bridgeLabels_ne_deviceLabels (bn bn' i : String) :
    bridgeLabels bn ≠ deviceLabels bn' i := by
  simp [bridgeLabels, deviceLabels]

/-- A loop over devices not containing a given device contributes nothing
to that device's label set. -/
theorem devicesLoop_filter_not_mem {bn ieee : String} {devs : List (String × JsonValue)}
    (h : ieee ∉ devs.map Prod.fst) :
    (devicesLoop bn devs).1.filter
      (fun op => decide (op.metricLabels = deviceLabels bn ieee)) = [] := by
  rw [List.filter_eq_nil_iff]
  intro op hop
  obtain ⟨i, d, hmem, hdu⟩ := devicesLoop_mem hop
  have hlab := (deviceUpdate_mem hdu).2.1
  have hne : i ≠ ieee := by
    intro hii
    subst hii
    exact h (List.mem_map_of_mem Prod.fst hmem)
  simp [hlab]
  intro hl
  exact hne (deviceLabels_inj hl)

/-- Projecting the loop's trace onto one device of a duplicate-free
device map yields exactly that device's mutations. -/
theorem devicesLoop_filter_mem {bn ieee : String} {d : JsonValue} :
    ∀ {devs : List (String × JsonValue)}, (devicesLoop bn devs).2 = none →
      (devs.map Prod.fst).Nodup → (ieee, d) ∈ devs →
      (devicesLoop bn devs).1.filter
        (fun op => decide (op.metricLabels = deviceLabels bn ieee)) =
        (deviceUpdate bn ieee d).1 := by
  intro devs
  induction devs with
  | nil => intro _ _ hmem; simp at hmem
  | cons hd tl ih =>
      obtain ⟨i', d'⟩ := hd
      intro hsucc hnodup hmem
      rw [List.map_cons] at hnodup
      have hnc := List.nodup_cons.mp hnodup
      have hstep : devicesLoop bn ((i', d') :: tl) =
          mseq (deviceUpdate bn i' d') (fun _ => devicesLoop bn tl) := rfl
      rw [hstep] at hsucc ⊢
      obtain ⟨hdu, hrest⟩ := mseq_snd_none hsucc
      rw [mseq_fst_of_none hdu, List.filter_append]
      rcases List.mem_cons.mp hmem with heq | htl
      · obtain ⟨rfl, rfl⟩ := Prod.mk.injEq .. ▸ heq
        have hfront : (deviceUpdate bn ieee d).1.filter
            (fun op => decide (op.metricLabels = deviceLabels bn ieee)) =
            (deviceUpdate bn ieee d).1 := by
          rw [List.filter_eq_self]
          intro op hop
          simp [(deviceUpdate_mem hop).2.1]
        rw [hfront, devicesLoop_filter_not_mem hnc.1, List.append_nil]
      · have hii : i' ≠ ieee := by
          intro hii
          subst hii
          exact hnc.1 (List.mem_map.mpr ⟨(i', d), htl, rfl⟩)
        have hfront : (deviceUpdate bn i' d').1.filter
            (fun op => decide (op.metricLabels = deviceLabels bn ieee)) = [] := by
          rw [List.filter_eq_nil_iff]
          intro op hop
          have hlab := (deviceUpdate_mem hop).2.1
          simp [hlab]
          intro hl
          exact hii (deviceLabels_inj hl)
        rw [hfront, List.nil_append]
        exact ih hrest hnc.2 htl

/-- When update_bridge_health completes without raising, its trace is the
concatenation of the five blocks' traces, each of which succeeded. -/
theorem update_bridge_health_decomp {bn : String} {f : List (String × JsonValue)}
    (h : (update_bridge_health bn f).2 = none) :
    (update_bridge_health bn f).1 =
      (healthResponseTime (bridgeLabels bn) f).1 ++ (healthOs (bridgeLabels bn) f).1 ++
      (healthProcess (bridgeLabels bn) f).1 ++ (healthMqtt (bridgeLabels bn) f).1 ++
      (healthDevices bn f).1 ∧
    (healthResponseTime (bridgeLabels bn) f).2 = none ∧
    (healthOs (bridgeLabels bn) f).2 = none ∧
    (healthProcess (bridgeLabels bn) f).2 = none ∧
    (healthMqtt (bridgeLabels bn) f).2 = none ∧
    (healthDevices bn f).2 = none := by
  unfold update_bridge_health at h ⊢
  obtain ⟨h1, h'⟩ := mseq_snd_none h
  obtain ⟨h2, h''⟩ := mseq_snd_none h'
  obtain ⟨h3, h'''⟩ := mseq_snd_none h''
  obtain ⟨h4, h5⟩ := mseq_snd_none h'''
  refine ⟨?_, h1, h2, h3, h4, h5⟩
  rw [mseq_fst_of_none h1, mseq_fst_of_none h2, mseq_fst_of_none h3, mseq_fst_of_none h4]
  simp [List.append_assoc]

theorem healthResponseTime_skip {L : List (String × String)}
    {f : List (String × JsonValue)} (h : lookupField f "response_time" = none) :
    healthResponseTime L f = ([], none) := by
  simp [healthResponseTime, h]

theorem healthOs_skip {L : List (String × String)} {f : List (String × JsonValue)}
    (h : lookupField f "os" = none) : healthOs L f = ([], none) := by
  simp [healthOs, h]

theorem healthProcess_skip {L : List (String × String)} {f : List (String × JsonValue)}
    (h : lookupField f "process" = none) : healthProcess L f = ([], none) := by
  simp [healthProcess, h]

theorem healthMqtt_skip {L : List (String × String)} {f : List (String × JsonValue)}
    (h : lookupField f "mqtt" = none) : healthMqtt L f = ([], none) := by
  simp [healthMqtt, h]

theorem healthDevices_skip {bn : String} {f : List (String × JsonValue)}
    (h : lookupField f "devices" = none) : healthDevices bn f = ([], none) := by
  simp [healthDevices, h]

/-- Summary-shaped device maps are skipped wholesale. -/
theorem healthDevices_summary {bn : String} {f : List (String × JsonValue)}
    {devs : List (String × JsonValue)} (h : lookupField f "devices" = some (.jobj devs))
    (hsum : (hasKey devs "total" || hasKey devs "active") = true) :
    healthDevices bn f = ([], none) := by
  simp [healthDevices, h, hsum]

/-- Per-device maps flow into the device loop. -/
theorem healthDevices_per_device {bn : String} {f : List (String × JsonValue)}
    {devs : List (String × JsonValue)} (h : lookupField f "devices" = some (.jobj devs))
    (ht : hasKey devs "total" = false) (ha : hasKey devs "active" = false) :
    healthDevices bn f = devicesLoop bn devs := by
  simp [healthDevices, h, ht, ha]

/-- A load-average array of fewer than three elements is skipped
entirely. -/
theorem healthLoadAverage_short {L : List (String × String)}
    {osf : List (String × JsonValue)} {arr : List JsonValue}
    (h : lookupField osf "load_average" = some (.jarr arr)) (hlen : arr.length < 3) :
    healthLoadAverage L (.jobj osf) = ([], none) := by
  simp [healthLoadAverage, pyContains, hasKey, pyGetField, pyLen, h, Nat.not_le.mpr hlen]

/-- A load-average array of at least three float-coercible elements sets
the three gauges from indices 0, 1, 2. -/
theorem healthLoadAverage_three {L : List (String × String)}
    {osf : List (String × JsonValue)} {arr : List JsonValue} {q0 q1 q2 : ℚ}
    (h : lookupField osf "load_average" = some (.jarr arr)) (hlen : 3 ≤ arr.length)
    (h0 : (arr.get? 0).bind pyFloat = some q0)
    (h1 : (arr.get? 1).bind pyFloat = some q1)
    (h2 : (arr.get? 2).bind pyFloat = some q2) :
    healthLoadAverage L (.jobj osf) =
      ([.setGauge zigbee2mqtt_os_load_average_1m L q0,
        .setGauge zigbee2mqtt_os_load_average_5m L q1,
        .setGauge zigbee2mqtt_os_load_average_15m L q2], none) := by
  have h0' : arr[0]?.bind pyFloat = some q0 := by simpa [List.get?_eq_getElem?] using h0
  have h1' : arr[1]?.bind pyFloat = some q1 := by simpa [List.get?_eq_getElem?] using h1
  have h2' : arr[2]?.bind pyFloat = some q2 := by simpa [List.get?_eq_getElem?] using h2
  simp [healthLoadAverage, pyContains, hasKey, pyGetField, pyIndex, pyLen, h, hlen,
    h0', h1', h2', mseq]

theorem sumIncs_append (key : String × List (String × String)) (l₁ l₂ : List MetricOp) :
    sumIncs key (l₁ ++ l₂) = sumIncs key l₁ + sumIncs key l₂ := by
  induction l₁ with
  | nil => simp [sumIncs]
  | cons op rest ih =>
      cases op <;> simp [sumIncs, ih, add_assoc]

/-- Dropping operations on other label sets does not change a counter's
total increment, as long as the filter keeps every operation on the
counter's own key. -/
theorem sumIncs_filter (key : String × List (String × String)) (p : MetricOp → Bool)
    (h : ∀ n lb a, (n, lb) = key → p (.incCounter n lb a) = true) :
    ∀ l : List MetricOp, sumIncs key (l.filter p) = sumIncs key l := by
  intro l
  induction l with
  | nil => simp
  | cons op rest ih =>
      cases op with
      | setGauge n lb v =>
          by_cases hp : p (.setGauge n lb v) <;> simp [hp, sumIncs, ih]
      | setInfo n lb kv =>
          by_cases hp : p (.setInfo n lb kv) <;> simp [hp, sumIncs, ih]
      | incCounter n lb a =>
          by_cases hk : (n, lb) = key
          · simp [List.filter_cons, h n lb a hk, sumIncs, hk, ih]
          · by_cases hp : p (.incCounter n lb a) <;> simp [hp, sumIncs, hk, ih]

/-- The prescribed per-device trace increments the appearance counter by
exactly 1. -/
theorem expectedDeviceOps_sumIncs (bn ieee : String) (ddf : List (String × JsonValue)) :
    sumIncs (zigbee2mqtt_device_appearances, deviceLabels bn ieee)
      (expectedDeviceOps bn ieee ddf) = 1 := by
  unfold expectedDeviceOps
  cases lookupField ddf "leave_count" <;>
    cases lookupField ddf "network_address_changes" <;>
      cases lookupField ddf "messages" <;>
        cases lookupField ddf "messages_per_sec" <;>
          simp [sumIncs_append, sumIncs]

/-- A device loop that completed without raising completed every device
without raising. -/
theorem devicesLoop_success_forall {bn : String} :
    ∀ {devs : List (String × JsonValue)}, (devicesLoop bn devs).2 = none →
      ∀ i d, (i, d) ∈ devs → (deviceUpdate bn i d).2 = none := by
  intro devs
  induction devs with
  | nil => intro _ i d hmem; simp at hmem
  | cons hd tl ih =>
      obtain ⟨i', d'⟩ := hd
      intro hsucc i d hmem
      have hstep : devicesLoop bn ((i', d') :: tl) =
          mseq (deviceUpdate bn i' d') (fun _ => devicesLoop bn tl) := rfl
      rw [hstep] at hsucc
      obtain ⟨hdu, hrest⟩ := mseq_snd_none hsucc
      rcases List.mem_cons.mp hmem with heq | htl
      · obtain ⟨rfl, rfl⟩ := Prod.mk.injEq .. ▸ heq
        exact hdu
      · exact ih hrest i d htl

/-- C2: a health payload whose devices map carries the summary keys
"total"/"active" causes zero per-device gauge or counter mutations; a
devices map without them updates, for every device record, exactly the
per-device gauges whose fields are present (overwriting, not
incrementing) and advances that device's appearance counter by exactly 1,
which is monotonically non-decreasing over any message sequence. -/
theorem update_bridge_health_device_handling (bn : String)
    (f : List (String × JsonValue)) (devs : List (String × JsonValue))
    (hdev : lookupField f "devices" = some (.jobj devs)) :
    ((hasKey devs "total" || hasKey devs "active") = true →
      (update_bridge_health bn f).1.filter
        (fun op => decide (op.metricName ∈ deviceMetricNames)) = []) ∧
    (hasKey devs "total" = false → hasKey devs "active" = false →
     (devs.map Prod.fst).Nodup →
     (update_bridge_health bn f).2 = none →
     ∀ ieee ddf, (ieee, JsonValue.jobj ddf) ∈ devs →
       (update_bridge_health bn f).1.filter
         (fun op => decide (op.metricLabels = deviceLabels bn ieee)) =
         expectedDeviceOps bn ieee ddf ∧
       ∀ s : MetricState,
         counterValue (applyOps s (update_bridge_health bn f).1)
             zigbee2mqtt_device_appearances (deviceLabels bn ieee) =
           counterValue s zigbee2mqtt_device_appearances (deviceLabels bn ieee) + 1) ∧
    (∀ (s : MetricState) (msgs : List (List (String × JsonValue)))
       (n : String) (l : List (String × String)),
       counterValue s n l ≤
         counterValue
           (msgs.foldl (fun t p => applyOps t (update_bridge_health bn p).1) s) n l) := by
  refine ⟨?_, ?_, ?_⟩
  · intro hsum
    rw [List.filter_eq_nil_iff]
    intro op hop
    simp only [decide_eq_true_eq]
    rcases update_bridge_health_mem hop with h1 | h1 | h1 | h1 | h1
    · obtain ⟨q, rfl⟩ := healthResponseTime_mem h1
      simp only [MetricOp.metricName]
      decide
    · have h2 := (healthOs_mem h1).1
      simp only [List.mem_cons, List.not_mem_nil, or_false] at h2
      rcases h2 with h2 | h2 | h2 | h2 | h2 <;> rw [h2] <;> decide
    · have h2 := (healthProcess_mem h1).1
      simp only [List.mem_cons, List.not_mem_nil, or_false] at h2
      rcases h2 with h2 | h2 | h2 <;> rw [h2] <;> decide
    · have h2 := (healthMqtt_mem h1).1
      simp only [List.mem_cons, List.not_mem_nil, or_false] at h2
      rcases h2 with h2 | h2 | h2 | h2 <;> rw [h2] <;> decide
    · rw [healthDevices_summary hdev hsum] at h1
      simp at h1
  · intro ht ha hnodup hsucc ieee ddf hmem
    obtain ⟨hdc, hrt, hos, hpr, hmq, hdv⟩ := update_bridge_health_decomp hsucc
    have hloop : healthDevices bn f = devicesLoop bn devs :=
      healthDevices_per_device hdev ht ha
    have hloopsucc : (devicesLoop bn devs).2 = none := by rw [← hloop]; exact hdv
    have hlabne : ∀ (g : List MetricOp),
        (∀ op ∈ g, op.metricLabels = bridgeLabels bn) →
        g.filter (fun op => decide (op.metricLabels = deviceLabels bn ieee)) = [] := by
      intro g hg
      rw [List.filter_eq_nil_iff]
      intro op hop
      simp only [decide_eq_true_eq, hg op hop]
      exact bridgeLabels_ne_deviceLabels bn bn ieee
    have hfilter : (update_bridge_health bn f).1.filter
        (fun op => decide (op.metricLabels = deviceLabels bn ieee)) =
        expectedDeviceOps bn ieee ddf := by
      rw [hdc, List.filter_append, List.filter_append, List.filter_append,
        List.filter_append]
      rw [hlabne _ (fun op hop => by
        obtain ⟨q, rfl⟩ := healthResponseTime_mem hop; rfl)]
      rw [hlabne _ (fun op hop => (healthOs_mem hop).2.1)]
      rw [hlabne _ (fun op hop => (healthProcess_mem hop).2.1)]
      rw [hlabne _ (fun op hop => (healthMqtt_mem hop).2.1)]
      rw [hloop, devicesLoop_filter_mem hloopsucc hnodup hmem]
      rw [deviceUpdate_success_eq (devicesLoop_success_forall hloopsucc ieee _ hmem)]
      simp
    refine ⟨hfilter, ?_⟩
    intro s
    rw [counterValue_applyOps]
    have hkeep : ∀ (n : String) (lb : List (String × String)) (a : ℚ),
        (n, lb) = (zigbee2mqtt_device_appearances, deviceLabels bn ieee) →
        (fun op => decide (op.metricLabels = deviceLabels bn ieee))
          (MetricOp.incCounter n lb a) = true := by
      intro n lb a hk
      obtain ⟨h1, h2⟩ := Prod.mk.injEq .. ▸ hk
      simp [MetricOp.metricLabels, h2]
    rw [← sumIncs_filter _ (fun op => decide (op.metricLabels = deviceLabels bn ieee))
      hkeep, hfilter, expectedDeviceOps_sumIncs]
  · intro s msgs
    induction msgs generalizing s with
    | nil => intro n l; simp
    | cons msg rest ih =>
        intro n l
        have step : counterValue s n l ≤
            counterValue (applyOps s (update_bridge_health bn msg).1) n l :=
          counterValue_mono n l _ s (fun op hop => update_bridge_health_incs_nonneg hop)
        exact le_trans step (by simpa using ih (applyOps s (update_bridge_health bn msg).1) n l)

/-- Witness for C2: a summary-shaped devices map yields no per-device
operation; a one-device map yields exactly the prescribed operations and
advances the appearance counter by one. -/
theorem update_bridge_health_device_handling_witness :
    (update_bridge_health "default"
        [("devices", .jobj [("total", .jnum 10), ("active", .jnum 8)])]).1.filter
      (fun op => decide (op.metricName ∈ deviceMetricNames)) = [] ∧
    (update_bridge_health "default"
        [("devices", .jobj [("0xabc", .jobj [("messages", .jnum 5)])])]).1.filter
      (fun op => decide (op.metricLabels = deviceLabels "default" "0xabc")) =
      expectedDeviceOps "default" "0xabc" [("messages", .jnum 5)] ∧
    counterValue
        (applyOps MetricState.empty
          (update_bridge_health "default"
            [("devices", .jobj [("0xabc", .jobj [("messages", .jnum 5)])])]).1)
        zigbee2mqtt_device_appearances (deviceLabels "default" "0xabc") =
      counterValue MetricState.empty
        zigbee2mqtt_device_appearances (deviceLabels "default" "0xabc") + 1 := by
  refine ⟨?_, ?_, ?_⟩
  · exact (update_bridge_health_device_handling "default"
      [("devices", .jobj [("total", .jnum 10), ("active", .jnum 8)])]
      [("total", .jnum 10), ("active", .jnum 8)] (by simp [lookupField])).1 (by decide)
  · exact ((update_bridge_health_device_handling "default"
      [("devices", .jobj [("0xabc", .jobj [("messages", .jnum 5)])])]
      [("0xabc", .jobj [("messages", .jnum 5)])] (by simp [lookupField])).2.1
      (by decide) (by decide) (by decide) (by decide) "0xabc" _
      (List.mem_singleton.mpr rfl)).1
  · exact ((update_bridge_health_device_handling "default"
      [("devices", .jobj [("0xabc", .jobj [("messages", .jnum 5)])])]
      [("0xabc", .jobj [("messages", .jnum 5)])] (by simp [lookupField])).2.1
      (by decide) (by decide) (by decide) (by decide) "0xabc" _
      (List.mem_singleton.mpr rfl)).2 MetricState.empty

/-- C1: the code does not reconcile the cumulative totals reported in
mqtt.published_messages_total - it executes counter.inc(reported_total)
on every message, so two identical reports of a total of 100 leave the
local counter at 200, not 100: the counter is artificially inflated
exactly as the spec forbids. -/
theorem update_bridge_health_mqtt_total_inflates :
    counterValue
        (applyOps MetricState.empty
          (update_bridge_health "default"
            [("mqtt", .jobj [("published_messages_total", .jnum 100)])]).1)
        zigbee2mqtt_mqtt_published_messages (bridgeLabels "default") = 100 ∧
    counterValue
        (applyOps
          (applyOps MetricState.empty
            (update_bridge_health "default"
              [("mqtt", .jobj [("published_messages_total", .jnum 100)])]).1)
          (update_bridge_health "default"
            [("mqtt", .jobj [("published_messages_total", .jnum 100)])]).1)
        zigbee2mqtt_mqtt_published_messages (bridgeLabels "default") = 200 := by
  have htr : (update_bridge_health "default"
      [("mqtt", .jobj [("published_messages_total", .jnum 100)])]).1 =
      [.incCounter zigbee2mqtt_mqtt_published_messages (bridgeLabels "default") 100] := by
    decide
  rw [htr]
  constructor
  · simp [applyOps, applyOp, counterValue, getAssoc, setAssoc, MetricState.empty]
  · simp [applyOps, applyOp, counterValue, getAssoc, setAssoc, MetricState.empty]
    norm_num

/-- C3: update_bridge_state always stamps the state-timestamp gauge with
the wall clock; the 0/1 bridge-state gauge becomes 1 exactly on the
literal string "online" when the "state" field is present (anything else
maps to 0), and is left untouched (with no error possible) when it is
absent. -/
theorem update_bridge_state_spec (bn : String) (now : ℚ)
    (f : List (String × JsonValue)) (s : MetricState) :
    gaugeValue (applyOps s (update_bridge_state bn now f))
        zigbee2mqtt_bridge_state_timestamp (bridgeLabels bn) = some now ∧
    (∀ v, lookupField f "state" = some v →
      (gaugeValue (applyOps s (update_bridge_state bn now f))
          zigbee2mqtt_bridge_state (bridgeLabels bn) = some 1 ↔
        v = JsonValue.jstr "online") ∧
      (¬ v = JsonValue.jstr "online" →
        gaugeValue (applyOps s (update_bridge_state bn now f))
            zigbee2mqtt_bridge_state (bridgeLabels bn) = some 0)) ∧
    (lookupField f "state" = none →
      gaugeValue (applyOps s (update_bridge_state bn now f))
          zigbee2mqtt_bridge_state (bridgeLabels bn) =
        gaugeValue s zigbee2mqtt_bridge_state (bridgeLabels bn)) := by
  have hne : (zigbee2mqtt_bridge_state, bridgeLabels bn) ≠
      (zigbee2mqtt_bridge_state_timestamp, bridgeLabels bn) := by
    simp [zigbee2mqtt_bridge_state, zigbee2mqtt_bridge_state_timestamp]
  refine ⟨?_, ?_, ?_⟩
  · cases hv : lookupField f "state" with
    | none =>
        simp only [update_bridge_state, hv]
        exact gaugeValue_applyOp_set_self s _ _ now
    | some v =>
        simp only [update_bridge_state, hv]
        rw [applyOps_cons, applyOps_cons, applyOps_nil,
          gaugeValue_applyOp_set_ne _ _ (by
            simp [zigbee2mqtt_bridge_state, zigbee2mqtt_bridge_state_timestamp])]
        exact gaugeValue_applyOp_set_self s _ _ now
  · intro v hv
    simp only [update_bridge_state, hv]
    rw [applyOps_cons, applyOps_cons, applyOps_nil]
    rw [gaugeValue_applyOp_set_self]
    cases v with
    | jstr t => by_cases ht : t = "online" <;> simp [ht]
    | jnum q => simp
    | jbool b => simp
    | jnull => simp
    | jarr xs => simp
    | jobj fs => simp
  · intro hv
    simp only [update_bridge_state, hv]
    rw [applyOps_cons, applyOps_nil, gaugeValue_applyOp_set_ne _ _ hne]

/-- A filter over the trace of update_bridge_health is empty as soon as
no block's operations satisfy it. -/
theorem update_bridge_health_filter_nil {bn : String} {f : List (String × JsonValue)}
    {p : MetricOp → Bool}
    (h1 : ∀ op ∈ (healthResponseTime (bridgeLabels bn) f).1, ¬ p op = true)
    (h2 : ∀ op ∈ (healthOs (bridgeLabels bn) f).1, ¬ p op = true)
    (h3 : ∀ op ∈ (healthProcess (bridgeLabels bn) f).1, ¬ p op = true)
    (h4 : ∀ op ∈ (healthMqtt (bridgeLabels bn) f).1, ¬ p op = true)
    (h5 : ∀ op ∈ (healthDevices bn f).1, ¬ p op = true) :
    (update_bridge_health bn f).1.filter p = [] := by
  rw [List.filter_eq_nil_iff]
  intro op hop
  rcases update_bridge_health_mem hop with h | h | h | h | h
  exacts [h1 _ h, h2 _ h, h3 _ h, h4 _ h, h5 _ h]

theorem healthResponseTime_name_filter {L : List (String × String)}
    {f : List (String × JsonValue)} {op : MetricOp} {names : List String}
    (hop : op ∈ (healthResponseTime L f).1)
    (h : zigbee2mqtt_bridge_health_timestamp ∉ names) :
    ¬ (decide (op.metricName ∈ names)) = true := by
  obtain ⟨q, rfl⟩ := healthResponseTime_mem hop
  simpa [MetricOp.metricName] using h

theorem healthOs_name_filter {L : List (String × String)}
    {f : List (String × JsonValue)} {op : MetricOp} {names : List String}
    (hop : op ∈ (healthOs L f).1)
    (h : ∀ n ∈ [zigbee2mqtt_os_load_average_1m, zigbee2mqtt_os_load_average_5m,
      zigbee2mqtt_os_load_average_15m, zigbee2mqtt_os_memory_used_mb,
      zigbee2mqtt_os_memory_percent], n ∉ names) :
    ¬ (decide (op.metricName ∈ names)) = true := by
  simp only [decide_eq_true_eq]
  exact h _ (healthOs_mem hop).1

theorem healthProcess_name_filter {L : List (String × String)}
    {f : List (String × JsonValue)} {op : MetricOp} {names : List String}
    (hop : op ∈ (healthProcess L f).1)
    (h : ∀ n ∈ [zigbee2mqtt_process_uptime_seconds, zigbee2mqtt_process_memory_used_mb,
      zigbee2mqtt_process_memory_percent], n ∉ names) :
    ¬ (decide (op.metricName ∈ names)) = true := by
  simp only [decide_eq_true_eq]
  exact h _ (healthProcess_mem hop).1

theorem healthMqtt_name_filter {L : List (String × String)}
    {f : List (String × JsonValue)} {op : MetricOp} {names : List String}
    (hop : op ∈ (healthMqtt L f).1)
    (h : ∀ n ∈ [zigbee2mqtt_mqtt_connected, zigbee2mqtt_mqtt_queued_messages,
      zigbee2mqtt_mqtt_published_messages, zigbee2mqtt_mqtt_received_messages],
      n ∉ names) :
    ¬ (decide (op.metricName ∈ names)) = true := by
  simp only [decide_eq_true_eq]
  exact h _ (healthMqtt_mem hop).1

theorem healthDevices_name_filter {bn : String} {f : List (String × JsonValue)}
    {op : MetricOp} {names : List String} (hop : op ∈ (healthDevices bn f).1)
    (h : ∀ n ∈ deviceMetricNames, n ∉ names) :
    ¬ (decide (op.metricName ∈ names)) = true := by
  simp only [decide_eq_true_eq]
  obtain ⟨i, d, hdu⟩ := healthDevices_mem hop
  exact h _ (deviceUpdate_mem hdu).1

/-- C7: a health payload missing one of the optional top-level keys
leaves every metric associated with that key untouched, and a payload in
which all five keys are absent performs no mutation and raises no
error - absent fields are simply skipped. -/
theorem update_bridge_health_frame (bn : String) (f : List (String × JsonValue)) :
    (∀ key ∈ ["response_time", "os", "process", "mqtt", "devices"],
      lookupField f key = none →
      (update_bridge_health bn f).1.filter
        (fun op => decide (op.metricName ∈ healthKeyMetricNames key)) = []) ∧
    ((∀ key ∈ ["response_time", "os", "process", "mqtt", "devices"],
        lookupField f key = none) →
      update_bridge_health bn f = ([], none)) := by
  constructor
  · intro key hkey hnone
    fin_cases hkey
    · refine update_bridge_health_filter_nil ?_ ?_ ?_ ?_ ?_
      · intro op hop
        rw [healthResponseTime_skip hnone] at hop
        simp at hop
      · exact fun op hop => healthOs_name_filter hop (by decide)
      · exact fun op hop => healthProcess_name_filter hop (by decide)
      · exact fun op hop => healthMqtt_name_filter hop (by decide)
      · exact fun op hop => healthDevices_name_filter hop (by decide)
    · refine update_bridge_health_filter_nil ?_ ?_ ?_ ?_ ?_
      · exact fun op hop => healthResponseTime_name_filter hop (by decide)
      · intro op hop
        rw [healthOs_skip hnone] at hop
        simp at hop
      · exact fun op hop => healthProcess_name_filter hop (by decide)
      · exact fun op hop => healthMqtt_name_filter hop (by decide)
      · exact fun op hop => healthDevices_name_filter hop (by decide)
    · refine update_bridge_health_filter_nil ?_ ?_ ?_ ?_ ?_
      · exact fun op hop => healthResponseTime_name_filter hop (by decide)
      · exact fun op hop => healthOs_name_filter hop (by decide)
      · intro op hop
        rw [healthProcess_skip hnone] at hop
        simp at hop
      · exact fun op hop => healthMqtt_name_filter hop (by decide)
      · exact fun op hop => healthDevices_name_filter hop (by decide)
    · refine update_bridge_health_filter_nil ?_ ?_ ?_ ?_ ?_
      · exact fun op hop => healthResponseTime_name_filter hop (by decide)
      · exact fun op hop => healthOs_name_filter hop (by decide)
      · exact fun op hop => healthProcess_name_filter hop (by decide)
      · intro op hop
        rw [healthMqtt_skip hnone] at hop
        simp at hop
      · exact fun op hop => healthDevices_name_filter hop (by decide)
    · refine update_bridge_health_filter_nil ?_ ?_ ?_ ?_ ?_
      · exact fun op hop => healthResponseTime_name_filter hop (by decide)
      · exact fun op hop => healthOs_name_filter hop (by decide)
      · exact fun op hop => healthProcess_name_filter hop (by decide)
      · exact fun op hop => healthMqtt_name_filter hop (by decide)
      · intro op hop
        rw [healthDevices_skip hnone] at hop
        simp at hop
  · intro h
    unfold update_bridge_health
    rw [healthResponseTime_skip (h _ (by decide)), healthOs_skip (h _ (by decide)),
      healthProcess_skip (h _ (by decide)), healthMqtt_skip (h _ (by decide)),
      healthDevices_skip (h _ (by decide))]
    simp [mseq]

/-- Witness for C7: a payload carrying only mqtt data leaves every os
metric untouched, and the empty payload performs no mutation and raises
nothing. -/
theorem update_bridge_health_frame_witness :
    (update_bridge_health "default" [("mqtt", .jobj [("connected", .jbool true)])]).1.filter
      (fun op => decide (op.metricName ∈ healthKeyMetricNames "os")) = [] ∧
    update_bridge_health "default" [("other", .jnull)] = ([], none) := by
  constructor
  · exact (update_bridge_health_frame "default"
      [("mqtt", .jobj [("connected", .jbool true)])]).1 "os" (by decide) rfl
  · exact (update_bridge_health_frame "default" [("other", .jnull)]).2
      (by intro k hk; fin_cases hk <;> rfl)

/-- Counterexample to C6 as stated: an os.load_average array of three
elements whose middle element is null sets the 1-minute gauge, then
raises at float(None), so the 5m/15m gauges are never set - the array IS
partially applied when a later element rejects float coercion. -/
theorem update_bridge_health_load_average_cex :
    update_bridge_health "default"
      [("os", .jobj [("load_average", .jarr [.jnum 1, .jnull, .jnum 2])])] =
    ([.setGauge zigbee2mqtt_os_load_average_1m (bridgeLabels "default") 1],
      some "TypeError") := by
  decide

/-- C6 amended: a load-average array shorter than three elements sets
none of the three gauges; an array of at least three float-coercible
elements, in an update that completes without raising, sets all three
gauges from indices 0, 1 and 2. -/
theorem update_bridge_health_load_average (bn : String) (f : List (String × JsonValue))
    (osf : List (String × JsonValue)) (arr : List JsonValue)
    (hos : lookupField f "os" = some (.jobj osf))
    (hla : lookupField osf "load_average" = some (.jarr arr)) :
    (arr.length < 3 →
      (update_bridge_health bn f).1.filter
        (fun op => decide (op.metricName ∈ [zigbee2mqtt_os_load_average_1m,
          zigbee2mqtt_os_load_average_5m, zigbee2mqtt_os_load_average_15m])) = []) ∧
    (∀ q0 q1 q2 : ℚ, 3 ≤ arr.length →
      (arr.get? 0).bind pyFloat = some q0 →
      (arr.get? 1).bind pyFloat = some q1 →
      (arr.get? 2).bind pyFloat = some q2 →
      (update_bridge_health bn f).2 = none →
      (update_bridge_health bn f).1.filter
        (fun op => decide (op.metricName ∈ [zigbee2mqtt_os_load_average_1m,
          zigbee2mqtt_os_load_average_5m, zigbee2mqtt_os_load_average_15m])) =
        [.setGauge zigbee2mqtt_os_load_average_1m (bridgeLabels bn) q0,
         .setGauge zigbee2mqtt_os_load_average_5m (bridgeLabels bn) q1,
         .setGauge zigbee2mqtt_os_load_average_15m (bridgeLabels bn) q2]) := by
  have hosblock : healthOs (bridgeLabels bn) f =
      mseq (healthLoadAverage (bridgeLabels bn) (.jobj osf))
        (fun _ => mseq
          (setFromField zigbee2mqtt_os_memory_used_mb (bridgeLabels bn) (.jobj osf) "memory_used_mb")
          (fun _ => setFromField zigbee2mqtt_os_memory_percent (bridgeLabels bn) (.jobj osf) "memory_percent")) := by
    simp [healthOs, hos]
  constructor
  · intro hlen
    refine update_bridge_health_filter_nil ?_ ?_ ?_ ?_ ?_
    · exact fun op hop => healthResponseTime_name_filter hop (by decide)
    · intro op hop
      rw [hosblock] at hop
      rcases mem_mseq hop with h1 | h1
      · rw [healthLoadAverage_short hla hlen] at h1
        simp at h1
      · rcases mem_mseq h1 with h2 | h2 <;>
        · obtain ⟨q, rfl⟩ := setFromField_mem h2
          simp only [MetricOp.metricName, decide_eq_true_eq]
          decide
    · exact fun op hop => healthProcess_name_filter hop (by decide)
    · exact fun op hop => healthMqtt_name_filter hop (by decide)
    · exact fun op hop => healthDevices_name_filter hop (by decide)
  · intro q0 q1 q2 hlen h0 h1 h2 hsucc
    obtain ⟨hdc, hrt, hosS, hpr, hmq, hdv⟩ := update_bridge_health_decomp hsucc
    have hnmnil : ∀ (g : List MetricOp),
        (∀ op ∈ g, ¬ ((fun op => decide (op.metricName ∈ [zigbee2mqtt_os_load_average_1m,
          zigbee2mqtt_os_load_average_5m, zigbee2mqtt_os_load_average_15m])) op) = true) →
        g.filter (fun op => decide (op.metricName ∈ [zigbee2mqtt_os_load_average_1m,
          zigbee2mqtt_os_load_average_5m, zigbee2mqtt_os_load_average_15m])) = [] := by
      intro g hg
      rw [List.filter_eq_nil_iff]
      exact hg
    rw [hdc, List.filter_append, List.filter_append, List.filter_append,
      List.filter_append]
    rw [hnmnil _ (fun op hop => healthResponseTime_name_filter hop (by decide))]
    rw [hnmnil _ (fun op hop => healthProcess_name_filter hop (by decide))]
    rw [hnmnil _ (fun op hop => healthMqtt_name_filter hop (by decide))]
    rw [hnmnil _ (fun op hop => healthDevices_name_filter hop (by decide))]
    rw [hosblock] at hosS ⊢
    obtain ⟨hlaS, hmemS⟩ := mseq_snd_none hosS
    rw [mseq_fst_of_none hlaS, List.filter_append]
    rw [healthLoadAverage_three hla hlen h0 h1 h2]
    have hmemnil : ((mseq
        (setFromField zigbee2mqtt_os_memory_used_mb (bridgeLabels bn) (.jobj osf) "memory_used_mb")
        (fun _ => setFromField zigbee2mqtt_os_memory_percent (bridgeLabels bn) (.jobj osf) "memory_percent")).1).filter
        (fun op => decide (op.metricName ∈ [zigbee2mqtt_os_load_average_1m,
          zigbee2mqtt_os_load_average_5m, zigbee2mqtt_os_load_average_15m])) = [] := by
      rw [List.filter_eq_nil_iff]
      intro op hop
      rcases mem_mseq hop with hx | hx <;>
      · obtain ⟨q, rfl⟩ := setFromField_mem hx
        simp only [MetricOp.metricName, decide_eq_true_eq]
        decide
    rw [hmemnil]
    simp [List.filter, MetricOp.metricName]

/-- Witness for the amended C6 at a two-element and a three-element
load-average array. -/
theorem update_bridge_health_load_average_witness :
    (update_bridge_health "default"
        [("os", .jobj [("load_average", .jarr [.jnum 1, .jnum 2])])]).1.filter
      (fun op => decide (op.metricName ∈ [zigbee2mqtt_os_load_average_1m,
        zigbee2mqtt_os_load_average_5m, zigbee2mqtt_os_load_average_15m])) = [] ∧
    (update_bridge_health "default"
        [("os", .jobj [("load_average", .jarr [.jnum 1, .jnum 2, .jnum 3])])]).1.filter
      (fun op => decide (op.metricName ∈ [zigbee2mqtt_os_load_average_1m,
        zigbee2mqtt_os_load_average_5m, zigbee2mqtt_os_load_average_15m])) =
      [.setGauge zigbee2mqtt_os_load_average_1m (bridgeLabels "default") 1,
       .setGauge zigbee2mqtt_os_load_average_5m (bridgeLabels "default") 2,
       .setGauge zigbee2mqtt_os_load_average_15m (bridgeLabels "default") 3] := by
  constructor
  · exact (update_bridge_health_load_average "default"
      [("os", .jobj [("load_average", .jarr [.jnum 1, .jnum 2])])]
      [("load_average", .jarr [.jnum 1, .jnum 2])] [.jnum 1, .jnum 2]
      (by simp [lookupField]) (by simp [lookupField])).1 (by decide)
  · exact (update_bridge_health_load_average "default"
      [("os", .jobj [("load_average", .jarr [.jnum 1, .jnum 2, .jnum 3])])]
      [("load_average", .jarr [.jnum 1, .jnum 2, .jnum 3])] [.jnum 1, .jnum 2, .jnum 3]
      (by simp [lookupField]) (by simp [lookupField])).2 1 2 3 (by decide) rfl rfl rfl
      (by decide)

/-- Counterexample to C5 as stated: a general-topic message whose payload
is not valid JSON is swallowed by the inner try of the general handler
with only a debug log - no processing-error counter is incremented at
all, in particular not json_parse_error. -/
theorem handle_general_message_invalid_json_cex :
    handle_general_message ⟨"localhost", "default"⟩ "sensors/raw" .invalidJson = [] := by
  rfl

/-- C5 amended: the health and state handlers count a JSON parse failure
as exactly one json_parse_error increment for their topic, and an invalid
UTF-8 payload as one handler_error increment; neither performs any other
metric mutation for such payloads and no exception escapes (the handlers
are total).  The general handler logs JSON parse failures without
touching any counter and counts only other failures, as general_error. -/
theorem handler_error_paths (m : MQTTMetricsCtx) (bn ht st gt : String) (now : ℚ) :
    handle_zigbee2mqtt_health m bn ht .invalidJson =
      [increment_processing_errors m ht "json_parse_error"] ∧
    handle_zigbee2mqtt_state m bn st now .invalidJson =
      [increment_processing_errors m st "json_parse_error"] ∧
    handle_zigbee2mqtt_health m bn ht .invalidUtf8 =
      [increment_processing_errors m ht "handler_error"] ∧
    handle_zigbee2mqtt_state m bn st now .invalidUtf8 =
      [increment_processing_errors m st "handler_error"] ∧
    handle_general_message m gt .invalidJson = [] ∧
    handle_general_message m gt .invalidUtf8 =
      [increment_processing_errors m gt "general_error"] := by
  exact ⟨rfl, rfl, rfl, rfl, rfl, rfl⟩

theorem infoCategory_mem {metric : String} {L : List (String × String)} {p : Policy}
    {cat : String} {src : JsonValue} {op : MetricOp}
    (h : op ∈ (infoCategory metric L p cat src).1) :
    ∃ kv, op = .setInfo metric L kv := by
  unfold infoCategory at h
  split at h
  · simp at h
  · split at h
    · simp at h
    · simp at h
      exact ⟨_, h⟩

/-- Counterexample to C4 as stated: the default FieldInclusionPolicy has
no network, bridge, os or mqtt categories, and a payload carrying only a
root log_level (which the claimed synthetic bridge category would emit)
produces no Info metric at all - only the timestamp gauge moves. -/
theorem update_bridge_info_categories_cex :
    update_bridge_info BRIDGE_INFO_INCLUDED_FIELDS "default" 0
        [("log_level", .jstr "info")] =
      ([.setGauge zigbee2mqtt_bridge_info_timestamp (bridgeLabels "default") 0], none) ∧
    policyFields BRIDGE_INFO_INCLUDED_FIELDS "network" = none ∧
    policyFields BRIDGE_INFO_INCLUDED_FIELDS "bridge" = none ∧
    policyFields BRIDGE_INFO_INCLUDED_FIELDS "os" = none ∧
    policyFields BRIDGE_INFO_INCLUDED_FIELDS "mqtt" = none := by
  refine ⟨by decide, by decide, by decide, by decide, by decide⟩

/-- C4 amended: update_bridge_info processes exactly the categories
version, coordinator and config of BRIDGE_INFO_INCLUDED_FIELDS (no other
category can ever emit an Info metric); on the spec's example payload it
emits the version info {version, commit} (read from the payload root) and
the coordinator info {ieee_address, type}, while extra_field appears in
no emitted metric. -/
theorem update_bridge_info_categories (p : Policy) (bn : String) (now : ℚ)
    (f : List (String × JsonValue)) :
    (∀ op ∈ (update_bridge_info p bn now f).1, ∀ nm lb kv,
      op = MetricOp.setInfo nm lb kv →
      nm ∈ [zigbee2mqtt_bridge_info_version, zigbee2mqtt_bridge_info_coordinator,
        zigbee2mqtt_bridge_info_config]) ∧
    update_bridge_info BRIDGE_INFO_INCLUDED_FIELDS bn now
        [("version", .jstr "1.13.0-dev"), ("commit", .jstr "772f6c0"),
         ("coordinator", .jobj [("ieee_address", .jstr "0x123"),
           ("type", .jstr "zStack30x"), ("extra_field", .jstr "ignored")])] =
      ([.setGauge zigbee2mqtt_bridge_info_timestamp (bridgeLabels bn) now,
        .setInfo zigbee2mqtt_bridge_info_version (bridgeLabels bn)
          [("version", "1.13.0-dev"), ("commit", "772f6c0")],
        .setInfo zigbee2mqtt_bridge_info_coordinator (bridgeLabels bn)
          [("ieee_address", "0x123"), ("type", "zStack30x")]], none) := by
  constructor
  · intro op hop nm lb kv heq
    subst heq
    unfold update_bridge_info at hop
    rcases mem_mseq hop with h1 | h1
    · simp at h1
    · rcases mem_mseq h1 with h2 | h2
      · split at h2
        · simp at h2
        · obtain ⟨kv', hkv⟩ := infoCategory_mem h2
          simp at hkv
          simp [hkv.1]
      · rcases mem_mseq h2 with h3 | h3
        · split at h3
          · simp at h3
          · obtain ⟨kv', hkv⟩ := infoCategory_mem h3
            simp at hkv
            simp [hkv.1]
        · split at h3
          · simp at h3
          · obtain ⟨kv', hkv⟩ := infoCategory_mem h3
            simp at hkv
            simp [hkv.1]
  · simp [update_bridge_info, mseq, infoCategory, collectFields, lookupField,
      pyContains, pyGetField, hasKey, pyStr, policyFields, getAssoc,
      BRIDGE_INFO_INCLUDED_FIELDS]

/-- Witness for the amended C4: the version Info metric emitted on the
example payload is one of the three supported categories. -/
theorem update_bridge_info_categories_witness :
    zigbee2mqtt_bridge_info_version ∈ [zigbee2mqtt_bridge_info_version,
      zigbee2mqtt_bridge_info_coordinator, zigbee2mqtt_bridge_info_config] :=
  (update_bridge_info_categories BRIDGE_INFO_INCLUDED_FIELDS "default" 0
      [("version", .jstr "1.13.0-dev"), ("commit", .jstr "772f6c0"),
       ("coordinator", .jobj [("ieee_address", .jstr "0x123"),
         ("type", .jstr "zStack30x"), ("extra_field", .jstr "ignored")])]).1
    (MetricOp.setInfo zigbee2mqtt_bridge_info_version (bridgeLabels "default")
      [("version", "1.13.0-dev"), ("commit", "772f6c0")])
    (by decide)
    zigbee2mqtt_bridge_info_version (bridgeLabels "default")
    [("version", "1.13.0-dev"), ("commit", "772f6c0")] rfl

/-- C10: the version-category Info metric is emitted only when the key
"version" is present at the payload root, and the allow-listed version
fields (commit included) are then collected from the payload root itself,
not from a nested sub-object; with "version" absent, no version Info
metric is emitted at all. -/
theorem update_bridge_info_version_from_root (p : Policy) (bn : String) (now : ℚ)
    (f : List (String × JsonValue)) :
    (lookupField f "version" = none →
      (update_bridge_info p bn now f).1.filter
        (fun op => decide (op.metricName = zigbee2mqtt_bridge_info_version)) = []) ∧
    (∀ v, lookupField f "version" = some v →
      (update_bridge_info p bn now f).1.filter
        (fun op => decide (op.metricName = zigbee2mqtt_bridge_info_version)) =
        (infoCategory zigbee2mqtt_bridge_info_version (bridgeLabels bn) p "version"
          (.jobj f)).1) := by
  have hts : (([MetricOp.setGauge zigbee2mqtt_bridge_info_timestamp (bridgeLabels bn) now]
      : List MetricOp)).filter
      (fun op => decide (op.metricName = zigbee2mqtt_bridge_info_version)) = [] := by
    simp [List.filter, MetricOp.metricName, zigbee2mqtt_bridge_info_timestamp,
      zigbee2mqtt_bridge_info_version]
  have hrestnil : ∀ op ∈ (mseq
      (match lookupField f "coordinator" with
       | none => ([], none)
       | some coordinator_data =>
           infoCategory zigbee2mqtt_bridge_info_coordinator (bridgeLabels bn)
             p "coordinator" coordinator_data)
      (fun _ =>
        match lookupField f "config" with
        | none => ([], none)
        | some config_data =>
            infoCategory zigbee2mqtt_bridge_info_config (bridgeLabels bn)
              p "config" config_data)).1,
      ¬ ((fun op => decide (op.metricName = zigbee2mqtt_bridge_info_version)) op) = true := by
    intro op hop
    simp only [decide_eq_true_eq]
    rcases mem_mseq hop with h1 | h1
    · split at h1
      · simp at h1
      · obtain ⟨kv, rfl⟩ := infoCategory_mem h1
        simp only [MetricOp.metricName]
        decide
    · split at h1
      · simp at h1
      · obtain ⟨kv, rfl⟩ := infoCategory_mem h1
        simp only [MetricOp.metricName]
        decide
  constructor
  · intro hv
    unfold update_bridge_info
    rw [mseq_fst_of_none rfl]
    simp only [hv]
    rw [mseq_fst_of_none rfl]
    rw [List.filter_append, List.filter_append, hts]
    rw [List.filter_eq_nil_iff.mpr hrestnil]
    simp
  · intro v hv
    unfold update_bridge_info
    rw [mseq_fst_of_none rfl]
    simp only [hv]
    have hVBself : ((infoCategory zigbee2mqtt_bridge_info_version (bridgeLabels bn)
        p "version" (.jobj f)).1).filter
        (fun op => decide (op.metricName = zigbee2mqtt_bridge_info_version)) =
        (infoCategory zigbee2mqtt_bridge_info_version (bridgeLabels bn)
          p "version" (.jobj f)).1 := by
      rw [List.filter_eq_self]
      intro op hop
      obtain ⟨kv, rfl⟩ := infoCategory_mem hop
      simp [MetricOp.metricName]
    cases hVB : (infoCategory zigbee2mqtt_bridge_info_version (bridgeLabels bn)
        p "version" (.jobj f)).2 with
    | none =>
        rw [mseq_fst_of_none hVB, List.filter_append, List.filter_append, hts,
          hVBself, List.filter_eq_nil_iff.mpr hrestnil]
        simp
    | some e =>
        rw [mseq_fst_of_some hVB, List.filter_append, hts, hVBself]
        simp

/-- Witness for C10: a payload with commit but no version emits no
version Info metric; with both keys present the version emission is the
root-collected map. -/
theorem update_bridge_info_version_from_root_witness :
    (update_bridge_info BRIDGE_INFO_INCLUDED_FIELDS "default" 0
        [("commit", .jstr "772f6c0")]).1.filter
      (fun op => decide (op.metricName = zigbee2mqtt_bridge_info_version)) = [] ∧
    (update_bridge_info BRIDGE_INFO_INCLUDED_FIELDS "default" 0
        [("version", .jstr "1.13.0-dev"), ("commit", .jstr "772f6c0")]).1.filter
      (fun op => decide (op.metricName = zigbee2mqtt_bridge_info_version)) =
      (infoCategory zigbee2mqtt_bridge_info_version (bridgeLabels "default")
        BRIDGE_INFO_INCLUDED_FIELDS "version"
        (.jobj [("version", .jstr "1.13.0-dev"), ("commit", .jstr "772f6c0")])).1 := by
  constructor
  · exact (update_bridge_info_version_from_root BRIDGE_INFO_INCLUDED_FIELDS "default" 0
      [("commit", .jstr "772f6c0")]).1 rfl
  · exact (update_bridge_info_version_from_root BRIDGE_INFO_INCLUDED_FIELDS "default" 0
      [("version", .jstr "1.13.0-dev"), ("commit", .jstr "772f6c0")]).2
      (.jstr "1.13.0-dev") rfl

/-- Counterexample to C8 as stated: "network" is not a category of
BRIDGE_INFO_INCLUDED_FIELDS, so addField("network", "x") twice is a
double no-op - afterwards there is no network field list at all (and in
particular none containing "x" exactly once). -/
theorem bridge_info_field_unknown_category_cex :
    add_bridge_info_field
        (add_bridge_info_field BRIDGE_INFO_INCLUDED_FIELDS "network" "x") "network" "x" =
      BRIDGE_INFO_INCLUDED_FIELDS ∧
    policyFields
        (add_bridge_info_field
          (add_bridge_info_field BRIDGE_INFO_INCLUDED_FIELDS "network" "x") "network" "x")
        "network" = none := by
  refine ⟨by decide, by decide⟩

/-- C8 amended: for a category that exists in the policy (version,
coordinator or config in the default), adding a field twice leaves it in
the list exactly once, removing it afterwards leaves it absent, and
removing an absent field is a no-op; for an unknown category (such as
"network") both operations are no-ops. -/
theorem bridge_info_field_policy_algebra (p : Policy) (cat fld : String) :
    (∀ l, policyFields p cat = some l → l.count fld ≤ 1 →
      ∃ l', policyFields
          (add_bridge_info_field (add_bridge_info_field p cat fld) cat fld) cat = some l' ∧
        l'.count fld = 1) ∧
    (∀ l, policyFields p cat = some l → l.count fld ≤ 1 →
      ∃ l', policyFields
          (remove_bridge_info_field
            (add_bridge_info_field (add_bridge_info_field p cat fld) cat fld) cat fld)
          cat = some l' ∧ l'.count fld = 0) ∧
    (∀ l, policyFields p cat = some l → fld ∉ l →
      remove_bridge_info_field p cat fld = p) ∧
    (policyFields p cat = none →
      add_bridge_info_field p cat fld = p ∧ remove_bridge_info_field p cat fld = p) := by
  have hadd2 : ∀ l, policyFields p cat = some l → l.count fld ≤ 1 →
      ∃ l', policyFields
          (add_bridge_info_field (add_bridge_info_field p cat fld) cat fld) cat = some l' ∧
        l'.count fld = 1 := by
    intro l hl hcount
    by_cases hmem : fld ∈ l
    · have h1 : add_bridge_info_field p cat fld = p := by
        simp [add_bridge_info_field, hl, hmem]
      have hone : l.count fld = 1 := by
        have hpos : l.count fld ≠ 0 := by
          intro h0
          exact (List.count_eq_zero.mp h0) hmem
        omega
      rw [h1, h1]
      exact ⟨l, hl, hone⟩
    · have h1 : add_bridge_info_field p cat fld = setAssoc cat (l ++ [fld]) p := by
        simp [add_bridge_info_field, hl, hmem]
      have h1f : policyFields (setAssoc cat (l ++ [fld]) p) cat = some (l ++ [fld]) :=
        getAssoc_setAssoc_self cat (l ++ [fld]) p
      have h2 : add_bridge_info_field (setAssoc cat (l ++ [fld]) p) cat fld =
          setAssoc cat (l ++ [fld]) p := by
        simp [add_bridge_info_field, policyFields] at h1f ⊢
        simp [h1f]
      rw [h1, h2]
      refine ⟨l ++ [fld], h1f, ?_⟩
      have hz : l.count fld = 0 := List.count_eq_zero.mpr hmem
      simp [hz]
  refine ⟨hadd2, ?_, ?_, ?_⟩
  · intro l hl hcount
    obtain ⟨l', hl', hone⟩ := hadd2 l hl hcount
    have hmem' : fld ∈ l' := by
      by_contra hnot
      rw [List.count_eq_zero.mpr hnot] at hone
      simp at hone
    have hrem : remove_bridge_info_field
        (add_bridge_info_field (add_bridge_info_field p cat fld) cat fld) cat fld =
        setAssoc cat (l'.erase fld)
          (add_bridge_info_field (add_bridge_info_field p cat fld) cat fld) := by
      simp [remove_bridge_info_field, hl', hmem']
    rw [hrem]
    refine ⟨l'.erase fld, getAssoc_setAssoc_self cat (l'.erase fld) _, ?_⟩
    rw [List.count_erase_self, hone]
  · intro l hl hmem
    simp [remove_bridge_info_field, hl, hmem]
  · intro h
    constructor <;> simp [add_bridge_info_field, remove_bridge_info_field, h]

/-- Witness for the amended C8 with the real category "config" and the
unknown category "network" on the default policy. -/
theorem bridge_info_field_policy_algebra_witness :
    (∃ l', policyFields
        (add_bridge_info_field
          (add_bridge_info_field BRIDGE_INFO_INCLUDED_FIELDS "config" "x") "config" "x")
        "config" = some l' ∧ l'.count "x" = 1) ∧
    (∃ l', policyFields
        (remove_bridge_info_field
          (add_bridge_info_field
            (add_bridge_info_field BRIDGE_INFO_INCLUDED_FIELDS "config" "x") "config" "x")
          "config" "x") "config" = some l' ∧ l'.count "x" = 0) ∧
    remove_bridge_info_field BRIDGE_INFO_INCLUDED_FIELDS "config" "not-present" =
      BRIDGE_INFO_INCLUDED_FIELDS ∧
    (add_bridge_info_field BRIDGE_INFO_INCLUDED_FIELDS "network" "x" =
      BRIDGE_INFO_INCLUDED_FIELDS ∧
     remove_bridge_info_field BRIDGE_INFO_INCLUDED_FIELDS "network" "x" =
      BRIDGE_INFO_INCLUDED_FIELDS) := by
  refine ⟨?_, ?_, ?_, ?_⟩
  · exact (bridge_info_field_policy_algebra BRIDGE_INFO_INCLUDED_FIELDS "config" "x").1
      ["mqtt_server", "mqtt_base_topic", "permit_join", "log_level"] (by decide) (by decide)
  · exact (bridge_info_field_policy_algebra BRIDGE_INFO_INCLUDED_FIELDS "config" "x").2.1
      ["mqtt_server", "mqtt_base_topic", "permit_join", "log_level"] (by decide) (by decide)
  · exact (bridge_info_field_policy_algebra BRIDGE_INFO_INCLUDED_FIELDS "config"
      "not-present").2.2.1 ["mqtt_server", "mqtt_base_topic", "permit_join", "log_level"]
      (by decide) (by decide)
  · exact (bridge_info_field_policy_algebra BRIDGE_INFO_INCLUDED_FIELDS "network" "x").2.2.2
      (by decide)

/-- C9: with the client connected, a subscribe whose underlying MQTT call
succeeds counts one subscription attempt, adds the topic to the tracked
set and republishes the active-subscription gauge as the set's size; a
subscribe whose underlying call raises counts the attempt and one
failure, and leaves both the tracked set and the gauge untouched. -/
theorem client_subscribe_tracking (m : MQTTMetricsCtx) (st : ClientState) (topic : String)
    (h : st.connected = true) :
    (clientSubscribe m st topic true =
      (⟨true, addTopic st.subscribed_topics topic⟩,
       [increment_subscription_attempts m topic,
        set_subscriptions_active m (addTopic st.subscribed_topics topic).length], true) ∧
     ∀ s : MetricState,
       counterValue (applyOps s (clientSubscribe m st topic true).2.1)
           mqtt_subscription_attempts
           [("topic", topic), ("broker_host", m.broker_host), ("bridge_name", m.bridge_name)] =
         counterValue s mqtt_subscription_attempts
           [("topic", topic), ("broker_host", m.broker_host), ("bridge_name", m.bridge_name)] + 1 ∧
       gaugeValue (applyOps s (clientSubscribe m st topic true).2.1)
           mqtt_subscriptions_active
           [("broker_host", m.broker_host), ("bridge_name", m.bridge_name)] =
         some ((addTopic st.subscribed_topics topic).length : ℚ)) ∧
    (clientSubscribe m st topic false =
      (st, [increment_subscription_attempts m topic,
        increment_subscription_failures m topic], false) ∧
     ∀ s : MetricState,
       counterValue (applyOps s (clientSubscribe m st topic false).2.1)
           mqtt_subscription_failures
           [("topic", topic), ("broker_host", m.broker_host), ("bridge_name", m.bridge_name)] =
         counterValue s mqtt_subscription_failures
           [("topic", topic), ("broker_host", m.broker_host), ("bridge_name", m.bridge_name)] + 1 ∧
       gaugeValue (applyOps s (clientSubscribe m st topic false).2.1)
           mqtt_subscriptions_active
           [("broker_host", m.broker_host), ("bridge_name", m.bridge_name)] =
         gaugeValue s mqtt_subscriptions_active
           [("broker_host", m.broker_host), ("bridge_name", m.bridge_name)]) := by
  have hops_t : (clientSubscribe m st topic true).2.1 =
      [increment_subscription_attempts m topic,
       set_subscriptions_active m (addTopic st.subscribed_topics topic).length] := by
    simp [clientSubscribe, h]
  have hops_f : (clientSubscribe m st topic false).2.1 =
      [increment_subscription_attempts m topic,
       increment_subscription_failures m topic] := by
    simp [clientSubscribe, h]
  refine ⟨⟨?_, ?_⟩, ?_, ?_⟩
  · simp [clientSubscribe, h]
  · intro s
    rw [hops_t]
    constructor
    · rw [applyOps_cons, applyOps_cons, applyOps_nil]
      simp only [increment_subscription_attempts, set_subscriptions_active,
        counterValue_applyOp_setGauge]
      exact counterValue_applyOp_inc_self s _ _ 1
    · rw [applyOps_cons, applyOps_cons, applyOps_nil]
      simp only [increment_subscription_attempts, set_subscriptions_active]
      exact gaugeValue_applyOp_set_self _ _ _ _
  · simp [clientSubscribe, h]
  · intro s
    rw [hops_f]
    constructor
    · rw [applyOps_cons, applyOps_cons, applyOps_nil]
      simp only [increment_subscription_attempts, increment_subscription_failures]
      rw [counterValue_applyOp_inc_self, counterValue_applyOp_inc_ne _ 1 (by
        simp [mqtt_subscription_failures, mqtt_subscription_attempts])]
    · rw [applyOps_cons, applyOps_cons, applyOps_nil]
      simp only [increment_subscription_attempts, increment_subscription_failures,
        gaugeValue_applyOp_inc]

/-- Witness for C9 from a fresh connected client. -/
theorem client_subscribe_tracking_witness :
    clientSubscribe ⟨"localhost", "default"⟩ ⟨true, []⟩ "zigbee2mqtt/bridge/health" true =
      (⟨true, ["zigbee2mqtt/bridge/health"]⟩,
       [increment_subscription_attempts ⟨"localhost", "default"⟩ "zigbee2mqtt/bridge/health",
        set_subscriptions_active ⟨"localhost", "default"⟩ 1], true) ∧
    clientSubscribe ⟨"localhost", "default"⟩ ⟨true, []⟩ "zigbee2mqtt/bridge/health" false =
      (⟨true, []⟩,
       [increment_subscription_attempts ⟨"localhost", "default"⟩ "zigbee2mqtt/bridge/health",
        increment_subscription_failures ⟨"localhost", "default"⟩ "zigbee2mqtt/bridge/health"],
       false) := by
  constructor
  · have := (client_subscribe_tracking ⟨"localhost", "default"⟩ ⟨true, []⟩
      "zigbee2mqtt/bridge/health" rfl).1.1
    simpa [addTopic] using this
  · exact (client_subscribe_tracking ⟨"localhost", "default"⟩ ⟨true, []⟩
      "zigbee2mqtt/bridge/health" rfl).2.1

/-- Witness for C3 at an "offline" payload and at the empty payload. -/
theorem update_bridge_state_spec_witness :
    gaugeValue (applyOps MetricState.empty
        (update_bridge_state "default" 7 [("state", .jstr "offline")]))
      zigbee2mqtt_bridge_state (bridgeLabels "default") = some 0 ∧
    gaugeValue (applyOps MetricState.empty (update_bridge_state "default" 7 []))
      zigbee2mqtt_bridge_state_timestamp (bridgeLabels "default") = some 7 ∧
    gaugeValue (applyOps MetricState.empty (update_bridge_state "default" 7 []))
      zigbee2mqtt_bridge_state (bridgeLabels "default") =
      gaugeValue MetricState.empty zigbee2mqtt_bridge_state (bridgeLabels "default") := by
  refine ⟨?_, ?_, ?_⟩
  · exact ((update_bridge_state_spec "default" 7 [("state", .jstr "offline")]
      MetricState.empty).2.1 (.jstr "offline") (by simp [lookupField])).2 (by simp)
  · exact (update_bridge_state_spec "default" 7 [] MetricState.empty).1
  · exact (update_bridge_state_spec "default" 7 [] MetricState.empty).2.2 rfl
